import Mathlib

/-
  Verification development for the Gail breast-cancer risk calculator
  (backend/app/calculators/gail_model.py).

  The Python module is embedded shallowly:
  * small integers stay integers (ℤ/ℕ); the float64 tables and arithmetic
    are idealised as exact rationals (ℚ) cast into the reals (ℝ), and
    numpy's exp/log become Real.exp / Real.log;
  * the mutable instance arrays of GailRiskCalculator become fields of an
    explicit state record `CalcState`, and `_calculate_risk` becomes a
    state-passing function returning the updated state and the result;
  * Python exceptions (RuntimeError from the is_initialized guard,
    ValueError from GailInputParams.validate) become `Except PyError`.

  Every definition is translated from the source; comments cite the
  corresponding lines of gail_model.py.
-/

namespace Gail

/-- Python exceptions that the embedded entry points can raise:
`RuntimeError("Call initialize() first")` and
`ValueError("Invalid input: ...")`.  The source defines no other error
(in particular it has no PatternOutOfRange error). -/
inductive PyError where
  | runtimeError : PyError
  | valueError : PyError
  deriving DecidableEq

/-! ### The covariate design matrix (gail_model.py lines 566-601)

`r8iTox2` is a local 216×9 array filled by block loops.  Each column is
written by a loop covering every row exactly once, so each column is the
closed-form function of the row index given below:

* column 0 (line 567-568): every row gets 1.0;
* column 1 (line 570-572): rows 0..107 get 0.0, rows 108..215 get 1.0,
  i.e. `r / 108` for `r < 216`;
* column 2 (line 574-578): inside each block of 108 rows, the three
  sub-blocks of 36 rows get 0.0 / 1.0 / 2.0, i.e. `r % 108 / 36`;
* column 3 (line 580-584): inside each block of 36 rows, sub-blocks of
  12 rows get 0/1/2, i.e. `r % 36 / 12`;
* column 4 (line 586-591): inside each block of 12 rows, sub-blocks of
  3 rows get 0/1/2/3, i.e. `r % 12 / 3`;
* column 5 (line 593-596): inside each block of 3 rows the values are
  0/1/2, i.e. `r % 3`;
* column 6 (line 599): `r8iTox2[i,1] * r8iTox2[i,3]` — the AGE-INDICATOR
  times the biopsy-count category (matching the coefficient comment
  "# breast biopsy * age >=50" at line 322);
* column 7 (line 600): `r8iTox2[i,4] * r8iTox2[i,5]`;
* column 8 (line 601): 1.0 (never used by the dot product, which runs
  over j in range(8)). -/
def designX (r : ℕ) (j : ℕ) : ℕ :=
  match j with
  | 0 => 1
  | 1 => if r < 108 then 0 else 1
  | 2 => r % 108 / 36
  | 3 => r % 36 / 12
  | 4 => r % 12 / 3
  | 5 => r % 3
  | 6 => (if r < 108 then 0 else 1) * (r % 36 / 12)
  | 7 => (r % 12 / 3) * (r % 3)
  | _ => 1

/-! Block decomposition of a 1-based pattern index k ∈ [1,216] into the
five categories (blocks of 108, 36, 12, 3, 1), as used by the spec's
§4.3/§4.4 and by claim C1. -/

/-- Age-indicator component of pattern `k` (blocks of 108). -/
def ageIndOf (k : ℕ) : ℕ := (k - 1) / 108

/-- Menarche component of pattern `k` (blocks of 36). -/
def menarcheOf (k : ℕ) : ℕ := (k - 1) % 108 / 36

/-- Biopsy-count component of pattern `k` (blocks of 12). -/
def biopsyOf (k : ℕ) : ℕ := (k - 1) % 36 / 12

/-- First-live-birth component of pattern `k` (blocks of 3). -/
def firstBirthOf (k : ℕ) : ℕ := (k - 1) % 12 / 3

/-- Relatives component of pattern `k` (unit blocks). -/
def relativesOf (k : ℕ) : ℕ := (k - 1) % 3

/-- Pattern index (gail_model.py lines 563-564):
`ilev = AgeIndicator*108 + MenarcheAge*36 + NumberOfBiopsy*12
      + FirstLiveBirthAge*3 + FirstDegRelatives + 1`.
No range check of any kind follows this computation in the source. -/
def patternIndex (ageInd men bio fb rel : ℤ) : ℤ :=
  ageInd * 108 + men * 36 + bio * 12 + fb * 3 + rel + 1

/-- Biopsy-input cleaning, first statement (line 393-394):
`if ever_had_biopsy == 99: ever_had_biopsy = 0`. -/
def biopsyStage1Ever (e : ℤ) : ℤ := if e = 99 then 0 else e

/-- Biopsy-input cleaning, count stage (lines 396-399):
`if ever_had_biopsy == 1 and num_biopsy == 99: num_biopsy = 1
 elif ever_had_biopsy == 0: num_biopsy = 0`
(applied after `biopsyStage1Ever`; the two branches are exclusive). -/
def biopsyStage2Count (e c : ℤ) : ℤ :=
  if biopsyStage1Ever e = 1 ∧ c = 99 then 1
  else if biopsyStage1Ever e = 0 then 0
  else c

/-- `GailRiskCalculator.clean_biopsy_inputs` (lines 385-407); returns
`(ever_had_biopsy, num_biopsy, hyperplasia)` after the cleaning:
the last two statements are `if 1 < num_biopsy <= 30: num_biopsy = 2`
and `if ever_had_biopsy == 0: hyperplasia = 99`. -/
def clean_biopsy_inputs (e c h : ℤ) : ℤ × ℤ × ℤ :=
  let e1 := biopsyStage1Ever e
  let c1 := biopsyStage2Count e c
  let c2 := if 1 < c1 ∧ c1 ≤ 30 then 2 else c1
  let h1 := if e1 = 0 then 99 else h
  (e1, c2, h1)

/-! ### The statistical tables (gail_model.py `initialize`, lines 133-383)

All numeric literals are transcribed verbatim; columns written in the
source as `np.array([...]) * 0.00001` are transcribed as the same list
mapped through `· * 0.00001`.  Columns that the source copies from other
columns are transcribed as the same list repeated (the source uses
`.copy()`, producing equal values). -/

/-- Age boundaries `self.t` (lines 141-143). -/
def tQlist : List ℚ :=
  [20, 25, 30, 35, 40, 45, 50, 55, 60, 65, 70, 75, 80, 85, 90]

/-- `self.t[j]` as a rational. -/
def tQ (j : ℕ) : ℚ := tQlist.getD j 0

/-- Columns of the competing-mortality table `self.rmu2` (lines 149-226),
column index = race code − 1. -/
def rmu2cols : List (List ℚ) :=
  [ ([49.3, 53.1, 62.5, 82.5, 130.7, 218.1, 365.5,
      585.2, 943.9, 1502.8, 2383.9, 3883.2, 6682.8, 14490.8].map (· * 0.00001)),
    [0.00074354, 0.00101698, 0.00145937, 0.00215933,
     0.00315077, 0.00448779, 0.00632281, 0.00963037,
     0.01471818, 0.02116304, 0.03266035, 0.04564087,
     0.06835185, 0.13271262],
    ([43.7, 53.3, 70.0, 89.7, 116.3, 170.2, 264.6,
      421.6, 696.0, 1086.7, 1685.8, 2515.6, 4186.6, 8947.6].map (· * 0.00001)),
    ([44.12, 52.54, 67.46, 90.92, 125.34, 195.70, 329.84,
      546.22, 910.35, 1418.54, 2259.35, 3611.46, 6136.26, 14206.63].map (· * 0.00001)),
    -- column 4 copies column 1 (line 175)
    [0.00074354, 0.00101698, 0.00145937, 0.00215933,
     0.00315077, 0.00448779, 0.00632281, 0.00963037,
     0.01471818, 0.02116304, 0.03266035, 0.04564087,
     0.06835185, 0.13271262],
    -- column 5 copies column 2 (line 178)
    ([43.7, 53.3, 70.0, 89.7, 116.3, 170.2, 264.6,
      421.6, 696.0, 1086.7, 1685.8, 2515.6, 4186.6, 8947.6].map (· * 0.00001)),
    [0.000210649076, 0.000192644865, 0.000244435215, 0.000317895949,
     0.000473261994, 0.000800271380, 0.001217480226, 0.002099836508,
     0.003436889186, 0.006097405623, 0.010664526765, 0.020148678452,
     0.037990796590, 0.098333900733],
    [0.000173593803, 0.000295805882, 0.000228322534, 0.000363242389,
     0.000590633044, 0.001086079485, 0.001859999966, 0.003216600974,
     0.004719402141, 0.008535331402, 0.012433511681, 0.020230197885,
     0.037725498348, 0.106149118663],
    [0.000229120979, 0.000262988494, 0.000314844090, 0.000394471908,
     0.000647622610, 0.001170202327, 0.001809380379, 0.002614170568,
     0.004483330681, 0.007393665092, 0.012233059675, 0.021127058106,
     0.037936954809, 0.085138518334],
    [0.000563507269, 0.000369640217, 0.001019912579, 0.001234013911,
     0.002098344078, 0.002982934175, 0.005402445702, 0.009591474245,
     0.016315472607, 0.020152229069, 0.027354838710, 0.050446998723,
     0.072262026612, 0.145844504021],
    [0.000465500812, 0.000600466920, 0.000851057138, 0.001478265376,
     0.001931486788, 0.003866623959, 0.004924932309, 0.008177071806,
     0.008638202890, 0.018974658371, 0.029257567105, 0.038408980974,
     0.052869579345, 0.074745721133],
    [0.000212632332, 0.000242170741, 0.000301552711, 0.000369053354,
     0.000543002943, 0.000893862331, 0.001515172239, 0.002574669551,
     0.004324370426, 0.007419621918, 0.013251765130, 0.022291427490,
     0.041746550635, 0.087485802065] ]

/-- `self.rmu2[i, c]` as a rational (row i = age band, column c). -/
def rmu2Q (i c : ℕ) : ℚ := (rmu2cols.getD c []).getD i 0

/-- Columns of the composite-incidence table `self.rlan2` (lines 232-309). -/
def rlan2cols : List (List ℚ) :=
  [ ([1.0, 7.6, 26.6, 66.1, 126.5, 186.6, 221.1,
      272.1, 334.8, 392.3, 417.8, 443.9, 442.1, 410.9].map (· * 0.00001)),
    [0.00002696, 0.00011295, 0.00031094, 0.00067639,
     0.00119444, 0.00187394, 0.00241504, 0.00291112,
     0.00310127, 0.00366560, 0.00393132, 0.00408951,
     0.00396793, 0.00363712],
    ([2.00, 7.10, 19.70, 43.80, 81.10, 130.70, 157.40,
      185.70, 215.10, 251.20, 284.60, 275.70, 252.30, 203.90].map (· * 0.00001)),
    ([1.22, 7.41, 22.97, 56.49, 116.45, 195.25, 261.54,
      302.79, 367.57, 420.29, 473.08, 494.25, 479.76, 401.06].map (· * 0.00001)),
    -- column 4 copies column 1 (line 258)
    [0.00002696, 0.00011295, 0.00031094, 0.00067639,
     0.00119444, 0.00187394, 0.00241504, 0.00291112,
     0.00310127, 0.00366560, 0.00393132, 0.00408951,
     0.00396793, 0.00363712],
    -- column 5 copies column 2 (line 261)
    ([2.00, 7.10, 19.70, 43.80, 81.10, 130.70, 157.40,
      185.70, 215.10, 251.20, 284.60, 275.70, 252.30, 203.90].map (· * 0.00001)),
    [0.000004059636, 0.000045944465, 0.000188279352, 0.000492930493,
     0.000913603501, 0.001471537353, 0.001421275482, 0.001970946494,
     0.001674745804, 0.001821581075, 0.001834477198, 0.001919911972,
     0.002233371071, 0.002247315779],
    [0.000000000001, 0.000099483924, 0.000287041681, 0.000545285759,
     0.001152211095, 0.001859245108, 0.002606291272, 0.003221751682,
     0.004006961859, 0.003521715275, 0.003593038294, 0.003589303081,
     0.003538507159, 0.002051572909],
    [0.000007500161, 0.000081073945, 0.000227492565, 0.000549786433,
     0.001129400541, 0.001813873795, 0.002223665639, 0.002680309266,
     0.002891219230, 0.002534421279, 0.002457159409, 0.002286616920,
     0.001814802825, 0.001750879130],
    [0.000045080582, 0.000098570724, 0.000339970860, 0.000852591429,
     0.001668562761, 0.002552703284, 0.003321774046, 0.005373001776,
     0.005237808549, 0.005581732512, 0.005677419355, 0.006513409962,
     0.003889457523, 0.002949061662],
    [0.000000000001, 0.000071525212, 0.000288799028, 0.000602250698,
     0.000755579402, 0.000766406354, 0.001893124938, 0.002365580107,
     0.002843933070, 0.002920921732, 0.002330395655, 0.002036291235,
     0.001482683983, 0.001012248203],
    [0.000012355409, 0.000059526456, 0.000184320831, 0.000454677273,
     0.000791265338, 0.001048462801, 0.001372467817, 0.001495473711,
     0.001646746198, 0.001478363563, 0.001216010125, 0.001067663700,
     0.001376104012, 0.000661576644] ]

/-- `self.rlan2[i, c]` as a rational. -/
def rlan2Q (i c : ℕ) : ℚ := (rlan2cols.getD c []).getD i 0

/-- Columns of the regression-coefficient table `self.bet2`
(lines 315-352).  Columns 2-5 copy columns 0/1/0-2 as in the source;
columns 6-11 all hold the Asian-American beta (line 347-352). -/
def bet2cols : List (List ℚ) :=
  [ [-0.7494824600, 0.0108080720, 0.0940103059, 0.5292641686,
     0.2186262218, 0.9583027845, -0.2880424830, -0.1908113865],
    [-0.3457169653, 0.0334703319, 0.2672530336, 0.1822121131,
     0.0000000000, 0.4757242578, -0.1119411682, 0.0000000000],
    -- column 2 copies column 0 (line 339)
    [-0.7494824600, 0.0108080720, 0.0940103059, 0.5292641686,
     0.2186262218, 0.9583027845, -0.2880424830, -0.1908113865],
    -- columns 3-5 copy columns 0-2 (lines 342-344)
    [-0.7494824600, 0.0108080720, 0.0940103059, 0.5292641686,
     0.2186262218, 0.9583027845, -0.2880424830, -0.1908113865],
    [-0.3457169653, 0.0334703319, 0.2672530336, 0.1822121131,
     0.0000000000, 0.4757242578, -0.1119411682, 0.0000000000],
    [-0.7494824600, 0.0108080720, 0.0940103059, 0.5292641686,
     0.2186262218, 0.9583027845, -0.2880424830, -0.1908113865],
    [0.0, 0.0, 0.07499257592975, 0.55263612260619,
     0.27638268294593, 0.79185633720481, 0.0, 0.0],
    [0.0, 0.0, 0.07499257592975, 0.55263612260619,
     0.27638268294593, 0.79185633720481, 0.0, 0.0],
    [0.0, 0.0, 0.07499257592975, 0.55263612260619,
     0.27638268294593, 0.79185633720481, 0.0, 0.0],
    [0.0, 0.0, 0.07499257592975, 0.55263612260619,
     0.27638268294593, 0.79185633720481, 0.0, 0.0],
    [0.0, 0.0, 0.07499257592975, 0.55263612260619,
     0.27638268294593, 0.79185633720481, 0.0, 0.0],
    [0.0, 0.0, 0.07499257592975, 0.55263612260619,
     0.27638268294593, 0.79185633720481, 0.0, 0.0] ]

/-- `self.bet2[j, c]` as a rational (row j = design position, column c). -/
def bet2Q (j c : ℕ) : ℚ := (bet2cols.getD c []).getD j 0

/-- Columns of the conversion-factor table `self.rf2` (lines 358-380);
each column holds the pair `(rf2[0,c], rf2[1,c])` as a 2-element list.
Column 12 is the extra `(1.0, 1.0)` pair of lines 379-380. -/
def rf2cols : List (List ℚ) :=
  [ [0.5788413, 0.5788413],
    [0.72949880, 0.74397137],
    [0.5788413, 0.5788413],
    [1.0, 1.0], [1.0, 1.0], [1.0, 1.0],
    [0.47519806426735, 0.50316401683903],
    [0.47519806426735, 0.50316401683903],
    [0.47519806426735, 0.50316401683903],
    [0.47519806426735, 0.50316401683903],
    [0.47519806426735, 0.50316401683903],
    [0.47519806426735, 0.50316401683903],
    [1.0, 1.0] ]

/-- `self.rf2[j, c]` as a rational (j ∈ {0,1}). -/
def rf2Q (j c : ℕ) : ℚ := (rf2cols.getD c []).getD j 0

/-! ### Age-band search (gail_model.py lines 529-540)

`ni = 0; for i in range(1, 16): if ti < self.t[i-1]: ni = i-1; break`
is the first index `j ∈ 0..14` with `ti < t[j]` (0 if none breaks),
and analogously for `ns` with `ts <= t[i-1]`. -/
def bandScan (c : ℕ → Bool) : ℕ :=
  if c 0 then 0 else if c 1 then 1 else if c 2 then 2 else if c 3 then 3 else
  if c 4 then 4 else if c 5 then 5 else if c 6 then 6 else if c 7 then 7 else
  if c 8 then 8 else if c 9 then 9 else if c 10 then 10 else if c 11 then 11 else
  if c 12 then 12 else if c 13 then 13 else if c 14 then 14 else 0

/-- The band `ni` containing an (integer) current age, computed over the
exact rational boundary table. -/
def niQ (a : ℤ) : ℕ := bandScan fun j => decide ((a : ℚ) < tQ j)

/-- The band `ns` containing an (integer) projection age. -/
def nsQ (b : ℤ) : ℕ := bandScan fun j => decide ((b : ℚ) ≤ tQ j)

/-! ### Competing-risks band arithmetic (gail_model.py lines 624-698)

For a band with incidence `lam`, mortality `mu` and predictor `p`, the
source forms the combined hazard `lam*exp(p) + mu`, the event
probability over a width `d`
`(1 - exp(-hazard*d)) * lam*exp(p) / hazard`,
and the survival factor `exp(-hazard*d)`. -/

/-- Combined hazard `self.rlan[..] * np.exp(sumbb) + self.rmu[..]`. -/
noncomputable def hazard (lam mu p : ℝ) : ℝ := lam * Real.exp p + mu

/-- Event probability of one band over width `d`
(e.g. lines 626-630 of the source). -/
noncomputable def eventProb (lam mu p d : ℝ) : ℝ :=
  (1 - Real.exp (-hazard lam mu p * d)) * (lam * Real.exp p) / hazard lam mu p

/-- Survival factor of one band over width `d`
(e.g. line 645 of the source). -/
noncomputable def survival (lam mu p d : ℝ) : ℝ :=
  Real.exp (-hazard lam mu p * d)

theorem hazard_nonneg {lam mu : ℝ} (p : ℝ) (hl : 0 ≤ lam) (hm : 0 ≤ mu) :
    0 ≤ hazard lam mu p :=
  add_nonneg (mul_nonneg hl (Real.exp_pos p).le) hm

theorem survival_pos (lam mu p d : ℝ) : 0 < survival lam mu p d :=
  Real.exp_pos _

theorem survival_le_one {lam mu : ℝ} (p : ℝ) {d : ℝ}
    (hl : 0 ≤ lam) (hm : 0 ≤ mu) (hd : 0 ≤ d) :
    survival lam mu p d ≤ 1 := by
  have h : -hazard lam mu p * d ≤ 0 :=
    mul_nonpos_of_nonpos_of_nonneg (neg_nonpos.mpr (hazard_nonneg p hl hm)) hd
  have := Real.exp_le_exp.mpr h
  rwa [Real.exp_zero] at this

theorem survival_antitone {lam mu : ℝ} (p : ℝ) {d1 d2 : ℝ}
    (hl : 0 ≤ lam) (hm : 0 ≤ mu) (h : d1 ≤ d2) :
    survival lam mu p d2 ≤ survival lam mu p d1 := by
  apply Real.exp_le_exp.mpr
  have h0 := hazard_nonneg p hl hm
  nlinarith

theorem eventProb_nonneg {lam mu : ℝ} (p : ℝ) {d : ℝ}
    (hl : 0 ≤ lam) (hm : 0 ≤ mu) (hd : 0 ≤ d) :
    0 ≤ eventProb lam mu p d := by
  by_cases hz : hazard lam mu p = 0
  · simp [eventProb, hz]
  · have hz' : 0 < hazard lam mu p :=
      lt_of_le_of_ne (hazard_nonneg p hl hm) (Ne.symm hz)
    apply div_nonneg _ hz'.le
    apply mul_nonneg _ (mul_nonneg hl (Real.exp_pos p).le)
    have h1 : Real.exp (-hazard lam mu p * d) ≤ 1 := survival_le_one p hl hm hd
    linarith

theorem eventProb_le_one_sub_survival {lam mu : ℝ} (p : ℝ) {d : ℝ}
    (hl : 0 ≤ lam) (hm : 0 ≤ mu) (hd : 0 ≤ d) :
    eventProb lam mu p d ≤ 1 - survival lam mu p d := by
  by_cases hz : hazard lam mu p = 0
  · have hL : lam * Real.exp p = 0 := by
      have := hazard_nonneg p hl hm
      have h1 : 0 ≤ lam * Real.exp p := mul_nonneg hl (Real.exp_pos p).le
      unfold hazard at hz; nlinarith
    simp [eventProb, survival, hazard, hL] at *
    simp [hz, hL]
  · have hz' : 0 < hazard lam mu p :=
      lt_of_le_of_ne (hazard_nonneg p hl hm) (Ne.symm hz)
    rw [eventProb, survival, div_le_iff hz']
    have hE : 0 ≤ 1 - Real.exp (-hazard lam mu p * d) := by
      have := survival_le_one p hl hm hd
      unfold survival at this; linarith
    have hL : lam * Real.exp p ≤ hazard lam mu p := by
      unfold hazard; linarith
    calc (1 - Real.exp (-hazard lam mu p * d)) * (lam * Real.exp p)
        ≤ (1 - Real.exp (-hazard lam mu p * d)) * hazard lam mu p :=
          mul_le_mul_of_nonneg_left hL hE
      _ = (1 - Real.exp (-hazard lam mu p * d)) * hazard lam mu p := rfl

theorem eventProb_le_one {lam mu : ℝ} (p : ℝ) {d : ℝ}
    (hl : 0 ≤ lam) (hm : 0 ≤ mu) (hd : 0 ≤ d) :
    eventProb lam mu p d ≤ 1 := by
  have h1 := eventProb_le_one_sub_survival p hl hm hd
  have h2 := survival_pos lam mu p d
  linarith

theorem eventProb_mono_width {lam mu : ℝ} (p : ℝ) {d1 d2 : ℝ}
    (hl : 0 ≤ lam) (hm : 0 ≤ mu) (hd1 : 0 ≤ d1) (h : d1 ≤ d2) :
    eventProb lam mu p d1 ≤ eventProb lam mu p d2 := by
  by_cases hz : hazard lam mu p = 0
  · simp [eventProb, hz]
  · have hz' : 0 < hazard lam mu p :=
      lt_of_le_of_ne (hazard_nonneg p hl hm) (Ne.symm hz)
    rw [eventProb, eventProb, div_le_div_iff_of_pos_right hz']
    apply mul_le_mul_of_nonneg_right _ (mul_nonneg hl (Real.exp_pos p).le)
    have : Real.exp (-hazard lam mu p * d2) ≤ Real.exp (-hazard lam mu p * d1) := by
      apply Real.exp_le_exp.mpr; nlinarith
    linarith

/-- Telescoping bound: a sum of per-band event probabilities, each
discounted by the survival of the preceding bands, is at most one minus
the total survival product. -/
theorem teleSum (s q : ℕ → ℝ) (a : ℕ) :
    ∀ b, a ≤ b →
    (∀ k, a ≤ k → k < b → 0 ≤ q k ∧ q k ≤ 1 - s k ∧ 0 ≤ s k) →
    Finset.sum (Finset.Ico a b)
        (fun k => q k * Finset.prod (Finset.Ico a k) s)
      ≤ 1 - Finset.prod (Finset.Ico a b) s := by
  intro b
  induction b with
  | zero =>
      intro hab _
      interval_cases a
      simp
  | succ b ih =>
      intro hab h
      rcases Nat.lt_or_ge a (b + 1) with hlt | hge
      · have hab' : a ≤ b := Nat.lt_succ_iff.mp hlt
        have ih' := ih hab' (fun k hk1 hk2 => h k hk1 (Nat.lt_succ_of_lt hk2))
        rw [Finset.sum_Ico_succ_top hab', Finset.prod_Ico_succ_top hab']
        have hb := h b hab' (Nat.lt_succ_self b)
        have hProd : 0 ≤ Finset.prod (Finset.Ico a b) s :=
          Finset.prod_nonneg fun k hk => by
            have hk' := Finset.mem_Ico.mp hk
            exact (h k hk'.1 (Nat.lt_succ_of_lt hk'.2)).2.2
        have hqb : q b * Finset.prod (Finset.Ico a b) s
            ≤ (1 - s b) * Finset.prod (Finset.Ico a b) s :=
          mul_le_mul_of_nonneg_right hb.2.1 hProd
        nlinarith
      · have he : Finset.Ico a (b + 1) = ∅ := Finset.Ico_eq_empty (by omega)
        rw [he]
        simp

/-! ### The band sum normal form

All four code paths of lines 624-698 are instances of one sum over the
bands `ni..ns`: the event probability of the band (using a
band-dependent predictor and band-dependent event width) times the
survival product of the strictly earlier bands.  The predictor and the
two width functions used by the code are `predOf`, `ewOf` and `swOf`
below; the equivalence with the literal branch structure is proved in
`riskCore_eq_bandSum_single` / `riskCore_eq_bandSum_multi`. -/

/-- General discounted band sum. -/
noncomputable def bandSum (lam mu P ew sw : ℕ → ℝ) (ni ns : ℕ) : ℝ :=
  Finset.sum (Finset.Icc ni ns) fun k =>
    eventProb (lam (k - 1)) (mu (k - 1)) (P k) (ew k) *
      Finset.prod (Finset.Ico ni k)
        (fun j => survival (lam (j - 1)) (mu (j - 1)) (P j) (sw j))

theorem bandSum_nonneg {lam mu P ew sw : ℕ → ℝ} {ni ns : ℕ}
    (hl : ∀ k, 0 ≤ lam k) (hm : ∀ k, 0 ≤ mu k)
    (hew : ∀ k, ni ≤ k → k ≤ ns → 0 ≤ ew k) :
    0 ≤ bandSum lam mu P ew sw ni ns := by
  apply Finset.sum_nonneg
  intro k hk
  have hk' := Finset.mem_Icc.mp hk
  exact mul_nonneg (eventProb_nonneg _ (hl _) (hm _) (hew k hk'.1 hk'.2))
    (Finset.prod_nonneg fun j _ => (survival_pos _ _ _ _).le)

theorem bandSum_le_one {lam mu P ew sw : ℕ → ℝ} {ni ns : ℕ}
    (hl : ∀ k, 0 ≤ lam k) (hm : ∀ k, 0 ≤ mu k)
    (hew : ∀ k, ni ≤ k → k ≤ ns → 0 ≤ ew k ∧ ew k ≤ sw k) :
    bandSum lam mu P ew sw ni ns ≤ 1 := by
  rcases Nat.lt_or_ge ns ni with hlt | hge
  · rw [bandSum, Finset.Icc_eq_empty_of_lt hlt]; simp
  · have key := teleSum
      (fun j => survival (lam (j - 1)) (mu (j - 1)) (P j) (sw j))
      (fun k => eventProb (lam (k - 1)) (mu (k - 1)) (P k) (ew k))
      ni (ns + 1) (by omega) ?_
    · have hProd : 0 ≤ Finset.prod (Finset.Ico ni (ns + 1))
          (fun j => survival (lam (j - 1)) (mu (j - 1)) (P j) (sw j)) :=
        Finset.prod_nonneg fun j _ => (survival_pos _ _ _ _).le
      rw [bandSum, ← Nat.Ico_succ_right]
      linarith
    · intro k hk1 hk2
      have hk2' : k ≤ ns := by omega
      obtain ⟨he0, hesw⟩ := hew k hk1 hk2'
      have hsw0 : 0 ≤ sw k := le_trans he0 hesw
      refine ⟨eventProb_nonneg _ (hl _) (hm _) he0, ?_, (survival_pos _ _ _ _).le⟩
      have h1 := eventProb_le_one_sub_survival (P k) (hl (k - 1)) (hm (k - 1)) he0
      have h2 : survival (lam (k-1)) (mu (k-1)) (P k) (sw k)
          ≤ survival (lam (k-1)) (mu (k-1)) (P k) (ew k) :=
        survival_antitone _ (hl _) (hm _) hesw
      linarith

theorem bandSum_congr {lam mu P P' ew ew' sw : ℕ → ℝ} {ni ns : ℕ}
    (hP : ∀ k, ni ≤ k → k ≤ ns → P k = P' k)
    (hew : ∀ k, ni ≤ k → k ≤ ns → ew k = ew' k) :
    bandSum lam mu P ew sw ni ns = bandSum lam mu P' ew' sw ni ns := by
  unfold bandSum
  apply Finset.sum_congr rfl
  intro k hk
  have hk' := Finset.mem_Icc.mp hk
  have hprod : Finset.prod (Finset.Ico ni k)
        (fun j => survival (lam (j - 1)) (mu (j - 1)) (P j) (sw j))
      = Finset.prod (Finset.Ico ni k)
        (fun j => survival (lam (j - 1)) (mu (j - 1)) (P' j) (sw j)) := by
    apply Finset.prod_congr rfl
    intro j hj
    have hj' := Finset.mem_Ico.mp hj
    rw [hP j hj'.1 (by omega)]
  rw [hP k hk'.1 hk'.2, hew k hk'.1 hk'.2, hprod]

theorem bandSum_mono {lam mu P ew1 ew2 sw : ℕ → ℝ} {ni ns1 ns2 : ℕ}
    (hl : ∀ k, 0 ≤ lam k) (hm : ∀ k, 0 ≤ mu k)
    (hni1 : ni ≤ ns1) (h12 : ns1 ≤ ns2)
    (hew1 : ∀ k, ni ≤ k → k ≤ ns1 → 0 ≤ ew1 k ∧ ew1 k ≤ ew2 k)
    (hew2 : ∀ k, ni ≤ k → k ≤ ns2 → 0 ≤ ew2 k) :
    bandSum lam mu P ew1 sw ni ns1 ≤ bandSum lam mu P ew2 sw ni ns2 := by
  have step1 : bandSum lam mu P ew1 sw ni ns1 ≤ bandSum lam mu P ew2 sw ni ns1 := by
    apply Finset.sum_le_sum
    intro k hk
    have hk' := Finset.mem_Icc.mp hk
    apply mul_le_mul_of_nonneg_right
    · obtain ⟨h0, hle⟩ := hew1 k hk'.1 hk'.2
      exact eventProb_mono_width _ (hl _) (hm _) h0 hle
    · exact Finset.prod_nonneg fun j _ => (survival_pos _ _ _ _).le
  have step2 : bandSum lam mu P ew2 sw ni ns1 ≤ bandSum lam mu P ew2 sw ni ns2 := by
    unfold bandSum
    rw [← Nat.Ico_succ_right, ← Nat.Ico_succ_right,
      ← Finset.sum_Ico_consecutive _ (show ni ≤ ns1 + 1 by omega)
        (show ns1 + 1 ≤ ns2 + 1 by omega)]
    have : 0 ≤ Finset.sum (Finset.Ico (ns1 + 1) (ns2 + 1)) fun k =>
        eventProb (lam (k - 1)) (mu (k - 1)) (P k) (ew2 k) *
          Finset.prod (Finset.Ico ni k)
            (fun j => survival (lam (j - 1)) (mu (j - 1)) (P j) (sw j)) := by
      apply Finset.sum_nonneg
      intro k hk
      have hk' := Finset.mem_Ico.mp hk
      exact mul_nonneg
        (eventProb_nonneg _ (hl _) (hm _) (hew2 k (by omega) (by omega)))
        (Finset.prod_nonneg fun j _ => (survival_pos _ _ _ _).le)
    linarith
  linarith

/-! ### Literal translation of the risk-accumulation block (lines 624-698)

`riskCore t lam mu sb sm ti ts ni ns` is the value stored into
`self.abs[i-1]` and returned, where `sb = self.sumbb[i-1]` and
`sm = self.sumbb[i+107]` (base and mirrored predictor).  The structure
mirrors the source exactly:

* `ts <= t[ni]` (line 625): single partial band, base predictor;
* otherwise the first partial band `ni` (lines 632-636), then — the
  `ns - ni > 0` guard of line 638 — the final partial band `ns` with
  either the age-50-crossing branch (lines 639-653: mirrored predictor
  for the event, `t[j-1] >= 50` gating for intermediate survivals) or
  the plain branch (lines 654-665); then — the `ns - ni > 1` guard of
  line 667 — each full intermediate band `k` (lines 668-686 crossing /
  687-696 plain), each multiplied by the first partial band's survival
  and the gated survivals of the bands between `ni` and `k`. -/
noncomputable def riskCore (t lam mu : ℕ → ℝ) (sb sm ti ts : ℝ) (ni ns : ℕ) : ℝ :=
  if ts ≤ t ni then
    eventProb (lam (ni - 1)) (mu (ni - 1)) sb (ts - ti)
  else
    eventProb (lam (ni - 1)) (mu (ni - 1)) sb (t ni - ti)
    + (if 0 < ns - ni then
        (if 50 < ts ∧ ti < 50 then
          eventProb (lam (ns - 1)) (mu (ns - 1)) sm (ts - t (ns - 1))
            * survival (lam (ni - 1)) (mu (ni - 1)) sb (t ni - ti)
            * Finset.prod (Finset.Ico (ni + 1) ns) (fun j =>
                if 50 ≤ t (j - 1) then
                  survival (lam (j - 1)) (mu (j - 1)) sm (t j - t (j - 1))
                else
                  survival (lam (j - 1)) (mu (j - 1)) sb (t j - t (j - 1)))
        else
          eventProb (lam (ns - 1)) (mu (ns - 1)) sb (ts - t (ns - 1))
            * survival (lam (ni - 1)) (mu (ni - 1)) sb (t ni - ti)
            * Finset.prod (Finset.Ico (ni + 1) ns) (fun j =>
                survival (lam (j - 1)) (mu (j - 1)) sb (t j - t (j - 1))))
      else 0)
    + (if 1 < ns - ni then
        (if 50 < ts ∧ ti < 50 then
          Finset.sum (Finset.Ico (ni + 1) ns) (fun k =>
            (if 50 ≤ t (k - 1) then
              eventProb (lam (k - 1)) (mu (k - 1)) sm (t k - t (k - 1))
            else
              eventProb (lam (k - 1)) (mu (k - 1)) sb (t k - t (k - 1)))
            * survival (lam (ni - 1)) (mu (ni - 1)) sb (t ni - ti)
            * Finset.prod (Finset.Ico (ni + 1) k) (fun j =>
                if 50 ≤ t (j - 1) then
                  survival (lam (j - 1)) (mu (j - 1)) sm (t j - t (j - 1))
                else
                  survival (lam (j - 1)) (mu (j - 1)) sb (t j - t (j - 1))))
        else
          Finset.sum (Finset.Ico (ni + 1) ns) (fun k =>
            eventProb (lam (k - 1)) (mu (k - 1)) sb (t k - t (k - 1))
            * survival (lam (ni - 1)) (mu (ni - 1)) sb (t ni - ti)
            * Finset.prod (Finset.Ico (ni + 1) k) (fun j =>
                survival (lam (j - 1)) (mu (j - 1)) sb (t j - t (j - 1)))))
      else 0)

/-- Survival width of band `j`: the first partial band `ni` spans
`[ti, t ni]`, every later band is full. -/
noncomputable def swOf (t : ℕ → ℝ) (ti : ℝ) (ni : ℕ) : ℕ → ℝ :=
  fun j => if j = ni then t ni - ti else t j - t (j - 1)

/-- Event width of band `k`: the final band `ns` is cut at `ts`, every
earlier band uses its survival width. -/
noncomputable def ewOf (t : ℕ → ℝ) (ti ts : ℝ) (ni ns : ℕ) : ℕ → ℝ :=
  fun k => if k = ns then (if ns = ni then ts - ti else ts - t (ns - 1))
           else swOf t ti ni k

/-- The predictor each band uses in the source: the first band always
uses the base predictor `sb`, the final band uses the mirrored `sm`
exactly in the age-50-crossing branch, and intermediate bands are gated
by `t[band-1] >= 50` inside the crossing branch. -/
noncomputable def predOf (t : ℕ → ℝ) (sb sm ti ts : ℝ) (ni ns : ℕ) : ℕ → ℝ :=
  fun k =>
    if k = ni then sb
    else if k = ns then (if 50 < ts ∧ ti < 50 then sm else sb)
    else if (50 < ts ∧ ti < 50) ∧ 50 ≤ t (k - 1) then sm else sb

theorem predOf_ni (t : ℕ → ℝ) (sb sm ti ts : ℝ) (ni ns : ℕ) :
    predOf t sb sm ti ts ni ns ni = sb := by
  simp [predOf]

theorem predOf_ns {ni ns : ℕ} (t : ℕ → ℝ) (sb sm ti ts : ℝ) (hne : ni ≠ ns) :
    predOf t sb sm ti ts ni ns ns = (if 50 < ts ∧ ti < 50 then sm else sb) := by
  simp [predOf, Ne.symm hne]

theorem predOf_mid {ni ns k : ℕ} (t : ℕ → ℝ) (sb sm ti ts : ℝ)
    (h1 : k ≠ ni) (h2 : k ≠ ns) :
    predOf t sb sm ti ts ni ns k
      = (if (50 < ts ∧ ti < 50) ∧ 50 ≤ t (k - 1) then sm else sb) := by
  simp [predOf, h1, h2]

theorem swOf_ni (t : ℕ → ℝ) (ti : ℝ) (ni : ℕ) : swOf t ti ni ni = t ni - ti := by
  simp [swOf]

theorem swOf_mid {ni j : ℕ} (t : ℕ → ℝ) (ti : ℝ) (h : j ≠ ni) :
    swOf t ti ni j = t j - t (j - 1) := by
  simp [swOf, h]

theorem ewOf_ni {ni ns : ℕ} (t : ℕ → ℝ) (ti ts : ℝ) (hne : ni ≠ ns) :
    ewOf t ti ts ni ns ni = t ni - ti := by
  simp [ewOf, swOf, hne]

theorem ewOf_ns {ni ns : ℕ} (t : ℕ → ℝ) (ti ts : ℝ) (hne : ni ≠ ns) :
    ewOf t ti ts ni ns ns = ts - t (ns - 1) := by
  simp [ewOf, Ne.symm hne]

theorem ewOf_mid {ni ns k : ℕ} (t : ℕ → ℝ) (ti ts : ℝ) (h2 : k ≠ ns) :
    ewOf t ti ts ni ns k = swOf t ti ni k := by
  simp [ewOf, h2]

/-- Splitting the band sum into first band + intermediate bands + final
band, with every survival product peeled at the first band. -/
theorem bandSum_split {lam mu P ew sw : ℕ → ℝ} {ni ns : ℕ} (hlt : ni < ns) :
    bandSum lam mu P ew sw ni ns
      = eventProb (lam (ni - 1)) (mu (ni - 1)) (P ni) (ew ni)
        + Finset.sum (Finset.Ico (ni + 1) ns) (fun k =>
            eventProb (lam (k - 1)) (mu (k - 1)) (P k) (ew k) *
              (survival (lam (ni - 1)) (mu (ni - 1)) (P ni) (sw ni) *
               Finset.prod (Finset.Ico (ni + 1) k)
                 (fun j => survival (lam (j - 1)) (mu (j - 1)) (P j) (sw j))))
        + eventProb (lam (ns - 1)) (mu (ns - 1)) (P ns) (ew ns) *
            (survival (lam (ni - 1)) (mu (ni - 1)) (P ni) (sw ni) *
             Finset.prod (Finset.Ico (ni + 1) ns)
               (fun j => survival (lam (j - 1)) (mu (j - 1)) (P j) (sw j))) := by
  unfold bandSum
  rw [← Nat.Ico_succ_right,
    Finset.sum_Ico_succ_top (show ni ≤ ns by omega),
    Finset.sum_eq_sum_Ico_succ_bot hlt,
    Finset.Ico_self, Finset.prod_empty, mul_one,
    Finset.prod_eq_prod_Ico_succ_bot hlt]
  have hmid : Finset.sum (Finset.Ico (ni + 1) ns) (fun k =>
        eventProb (lam (k - 1)) (mu (k - 1)) (P k) (ew k) *
          Finset.prod (Finset.Ico ni k)
            (fun j => survival (lam (j - 1)) (mu (j - 1)) (P j) (sw j)))
      = Finset.sum (Finset.Ico (ni + 1) ns) (fun k =>
          eventProb (lam (k - 1)) (mu (k - 1)) (P k) (ew k) *
            (survival (lam (ni - 1)) (mu (ni - 1)) (P ni) (sw ni) *
             Finset.prod (Finset.Ico (ni + 1) k)
               (fun j => survival (lam (j - 1)) (mu (j - 1)) (P j) (sw j)))) := by
    apply Finset.sum_congr rfl
    intro k hk
    have hk' := Finset.mem_Ico.mp hk
    rw [Finset.prod_eq_prod_Ico_succ_bot (show ni < k by omega)]
  rw [hmid]

/-- In the single-band branch (`ts <= t[ni]`, line 625), `riskCore`
equals the band sum when `ns = ni`. -/
theorem riskCore_eq_single (t lam mu : ℕ → ℝ) (sb sm ti ts : ℝ) (ni ns : ℕ)
    (h : ts ≤ t ni) (hns : ns = ni) :
    riskCore t lam mu sb sm ti ts ni ns
      = bandSum lam mu (predOf t sb sm ti ts ni ns) (ewOf t ti ts ni ns)
          (swOf t ti ni) ni ns := by
  subst hns
  rw [riskCore, if_pos h, bandSum, Finset.Icc_self, Finset.sum_singleton,
    Finset.Ico_self, Finset.prod_empty, mul_one]
  simp [predOf, ewOf]

/-- Pushing an `A`-guarded two-way choice of predictor inside
`survival`. -/
theorem gate_survival (A : Prop) [Decidable A] (hA : A)
    (c : Prop) [Decidable c] (lam mu sb sm d : ℝ) :
    (if c then survival lam mu sm d else survival lam mu sb d)
      = survival lam mu (if A ∧ c then sm else sb) d := by
  by_cases hc : c <;> simp [hc, hA]

/-- Pushing an `A`-guarded two-way choice of predictor inside
`eventProb`. -/
theorem gate_eventProb (A : Prop) [Decidable A] (hA : A)
    (c : Prop) [Decidable c] (lam mu sb sm d : ℝ) :
    (if c then eventProb lam mu sm d else eventProb lam mu sb d)
      = eventProb lam mu (if A ∧ c then sm else sb) d := by
  by_cases hc : c <;> simp [hc, hA]

/-- In the multi-band branch (`ts > t[ni]`), `riskCore` equals the band
sum over `ni..ns` with the source's predictor selection `predOf`. -/
theorem riskCore_eq_multi (t lam mu : ℕ → ℝ) (sb sm ti ts : ℝ) (ni ns : ℕ)
    (h : ¬ ts ≤ t ni) (hlt : ni < ns) :
    riskCore t lam mu sb sm ti ts ni ns
      = bandSum lam mu (predOf t sb sm ti ts ni ns) (ewOf t ti ts ni ns)
          (swOf t ti ni) ni ns := by
  have hne : ni ≠ ns := Nat.ne_of_lt hlt
  have h0 : 0 < ns - ni := by omega
  rw [riskCore, if_neg h, if_pos h0, bandSum_split hlt,
    predOf_ni, predOf_ns t sb sm ti ts hne, swOf_ni,
    ewOf_ni t ti ts hne, ewOf_ns t ti ts hne]
  rcases Nat.lt_or_ge 1 (ns - ni) with h1 | h1
  case inr =>
    have he : Finset.Ico (ni + 1) ns = ∅ := Finset.Ico_eq_empty (by omega)
    rw [if_neg (by omega : ¬ 1 < ns - ni)]
    simp only [he, Finset.sum_empty, Finset.prod_empty, mul_one, add_zero]
    by_cases hc : 50 < ts ∧ ti < 50
    · rw [if_pos hc, if_pos hc]
    · rw [if_neg hc, if_neg hc]
  rw [if_pos h1]
  by_cases hc : 50 < ts ∧ ti < 50
  · rw [if_pos hc, if_pos hc, if_pos hc]
    have hprod : ∀ k, k ≤ ns →
        Finset.prod (Finset.Ico (ni + 1) k) (fun j =>
          if 50 ≤ t (j - 1) then
            survival (lam (j - 1)) (mu (j - 1)) sm (t j - t (j - 1))
          else
            survival (lam (j - 1)) (mu (j - 1)) sb (t j - t (j - 1)))
        = Finset.prod (Finset.Ico (ni + 1) k) (fun j =>
            survival (lam (j - 1)) (mu (j - 1))
              (predOf t sb sm ti ts ni ns j) (swOf t ti ni j)) := by
      intro k hk
      apply Finset.prod_congr rfl
      intro j hj
      have hj' := Finset.mem_Ico.mp hj
      rw [predOf_mid t sb sm ti ts (by omega) (by omega),
        swOf_mid t ti (by omega : j ≠ ni),
        gate_survival _ hc]
    have hsum : Finset.sum (Finset.Ico (ni + 1) ns) (fun k =>
          (if 50 ≤ t (k - 1) then
            eventProb (lam (k - 1)) (mu (k - 1)) sm (t k - t (k - 1))
          else
            eventProb (lam (k - 1)) (mu (k - 1)) sb (t k - t (k - 1)))
          * survival (lam (ni - 1)) (mu (ni - 1)) sb (t ni - ti)
          * Finset.prod (Finset.Ico (ni + 1) k) (fun j =>
              if 50 ≤ t (j - 1) then
                survival (lam (j - 1)) (mu (j - 1)) sm (t j - t (j - 1))
              else
                survival (lam (j - 1)) (mu (j - 1)) sb (t j - t (j - 1))))
        = Finset.sum (Finset.Ico (ni + 1) ns) (fun k =>
            eventProb (lam (k - 1)) (mu (k - 1))
                (predOf t sb sm ti ts ni ns k) (ewOf t ti ts ni ns k) *
              (survival (lam (ni - 1)) (mu (ni - 1)) sb (t ni - ti) *
               Finset.prod (Finset.Ico (ni + 1) k) (fun j =>
                 survival (lam (j - 1)) (mu (j - 1))
                   (predOf t sb sm ti ts ni ns j) (swOf t ti ni j)))) := by
      apply Finset.sum_congr rfl
      intro k hk
      have hk' := Finset.mem_Ico.mp hk
      rw [predOf_mid t sb sm ti ts (by omega) (by omega),
        ewOf_mid t ti ts (by omega : k ≠ ns),
        swOf_mid t ti (by omega : k ≠ ni),
        gate_eventProb _ hc, hprod k (by omega), mul_assoc]
    rw [hsum, hprod ns (le_refl ns), mul_assoc]
    ring
  · rw [if_neg hc, if_neg hc, if_neg hc]
    have hprod : ∀ k, k ≤ ns →
        Finset.prod (Finset.Ico (ni + 1) k) (fun j =>
          survival (lam (j - 1)) (mu (j - 1)) sb (t j - t (j - 1)))
        = Finset.prod (Finset.Ico (ni + 1) k) (fun j =>
            survival (lam (j - 1)) (mu (j - 1))
              (predOf t sb sm ti ts ni ns j) (swOf t ti ni j)) := by
      intro k hk
      apply Finset.prod_congr rfl
      intro j hj
      have hj' := Finset.mem_Ico.mp hj
      rw [predOf_mid t sb sm ti ts (by omega) (by omega),
        swOf_mid t ti (by omega : j ≠ ni)]
      simp [hc]
    have hsum : Finset.sum (Finset.Ico (ni + 1) ns) (fun k =>
          eventProb (lam (k - 1)) (mu (k - 1)) sb (t k - t (k - 1))
          * survival (lam (ni - 1)) (mu (ni - 1)) sb (t ni - ti)
          * Finset.prod (Finset.Ico (ni + 1) k) (fun j =>
              survival (lam (j - 1)) (mu (j - 1)) sb (t j - t (j - 1))))
        = Finset.sum (Finset.Ico (ni + 1) ns) (fun k =>
            eventProb (lam (k - 1)) (mu (k - 1))
                (predOf t sb sm ti ts ni ns k) (ewOf t ti ts ni ns k) *
              (survival (lam (ni - 1)) (mu (ni - 1)) sb (t ni - ti) *
               Finset.prod (Finset.Ico (ni + 1) k) (fun j =>
                 survival (lam (j - 1)) (mu (j - 1))
                   (predOf t sb sm ti ts ni ns j) (swOf t ti ni j)))) := by
      apply Finset.sum_congr rfl
      intro k hk
      have hk' := Finset.mem_Ico.mp hk
      rw [predOf_mid t sb sm ti ts (by omega) (by omega),
        ewOf_mid t ti ts (by omega : k ≠ ns),
        swOf_mid t ti (by omega : k ≠ ni),
        hprod k (by omega), mul_assoc]
      simp [hc]
    rw [hsum, hprod ns (le_refl ns), mul_assoc]
    ring

theorem ewOf_single {ni ns : ℕ} (t : ℕ → ℝ) (ti ts : ℝ) (hns : ns = ni) :
    ewOf t ti ts ni ns ns = ts - ti := by
  simp [ewOf, hns]

/-- The value of the risk-accumulation block lies in `[0, 1]` as soon as
the per-band rates are nonnegative and the band boundaries delimit the
age interval in order. -/
theorem riskCore_bounds (t lam mu : ℕ → ℝ) (sb sm ti ts : ℝ) (ni ns : ℕ)
    (hlam : ∀ k, 0 ≤ lam k) (hmu : ∀ k, 0 ≤ mu k)
    (htits : ti ≤ ts) (htin : ti ≤ t ni)
    (hmulti : ¬ ts ≤ t ni → ni < ns ∧ t (ns - 1) ≤ ts ∧ ts ≤ t ns ∧
       ∀ j, ni ≤ j → j < ns → t j ≤ t (j + 1)) :
    0 ≤ riskCore t lam mu sb sm ti ts ni ns
      ∧ riskCore t lam mu sb sm ti ts ni ns ≤ 1 := by
  by_cases hb : ts ≤ t ni
  · rw [riskCore, if_pos hb]
    have hd : 0 ≤ ts - ti := by linarith
    exact ⟨eventProb_nonneg _ (hlam _) (hmu _) hd,
      eventProb_le_one _ (hlam _) (hmu _) hd⟩
  · obtain ⟨hlt, hlow, hup, hw⟩ := hmulti hb
    rw [riskCore_eq_multi t lam mu sb sm ti ts ni ns hb hlt]
    have hewsw : ∀ k, ni ≤ k → k ≤ ns →
        0 ≤ ewOf t ti ts ni ns k ∧ ewOf t ti ts ni ns k ≤ swOf t ti ni k := by
      intro k hk1 hk2
      by_cases hkns : k = ns
      · subst hkns
        rw [ewOf_ns t ti ts (by omega), swOf_mid t ti (by omega : k ≠ ni)]
        have hj := hw (k - 1) (by omega) (by omega)
        have hk1' : (k - 1) + 1 = k := by omega
        rw [hk1'] at hj
        constructor <;> linarith
      · rw [ewOf_mid t ti ts hkns]
        by_cases hkni : k = ni
        · subst hkni
          rw [swOf_ni]
          exact ⟨by linarith, le_refl _⟩
        · rw [swOf_mid t ti hkni]
          have hj := hw (k - 1) (by omega) (by omega)
          have hk1' : (k - 1) + 1 = k := by omega
          rw [hk1'] at hj
          exact ⟨by linarith, le_refl _⟩
    exact ⟨bandSum_nonneg hlam hmu (fun k u v => (hewsw k u v).1),
      bandSum_le_one hlam hmu hewsw⟩

/-- Monotonicity of the risk-accumulation block in the projection age:
extending the interval (and correspondingly moving the final band) can
only increase the accumulated probability. -/
theorem riskCore_mono (t lam mu : ℕ → ℝ) (sb sm ti ts1 ts2 : ℝ) (ni ns1 ns2 : ℕ)
    (hlam : ∀ k, 0 ≤ lam k) (hmu : ∀ k, 0 ≤ mu k)
    (h0 : ti ≤ ts1) (h12 : ts1 ≤ ts2)
    (hni1 : ni ≤ ns1) (hns12 : ns1 ≤ ns2)
    (htin : ti ≤ t ni)
    (hup1 : ts1 ≤ t ns1) (hup2 : ts2 ≤ t ns2)
    (hlow1 : ni < ns1 → t (ns1 - 1) ≤ ts1)
    (hlow2 : ni < ns2 → t (ns2 - 1) ≤ ts2)
    (hsingle1 : ts1 ≤ t ni → ns1 = ni) (hmulti1 : ¬ ts1 ≤ t ni → ni < ns1)
    (hsingle2 : ts2 ≤ t ni → ns2 = ni) (hmulti2 : ¬ ts2 ≤ t ni → ni < ns2)
    (hw : ∀ j, ni ≤ j → j < ns2 → t j ≤ t (j + 1))
    (hA : 50 < ts1 → ti < 50 → ni < ns1 → 50 ≤ t (ns1 - 1))
    (hB : ts1 ≤ 50 → ∀ k, ni < k → k ≤ ns1 → t (k - 1) < 50)
    (hC : ts1 ≤ 50 → 50 < ts2 → ti < 50 → ns1 < ns2) :
    riskCore t lam mu sb sm ti ts1 ni ns1
      ≤ riskCore t lam mu sb sm ti ts2 ni ns2 := by
  have hPeq : ∀ k, ni ≤ k → k ≤ ns1 →
      predOf t sb sm ti ts1 ni ns1 k = predOf t sb sm ti ts2 ni ns2 k := by
    intro k hk1 hk2
    by_cases hkni : k = ni
    · subst hkni
      rw [predOf_ni, predOf_ni]
    · have hlt1 : ni < ns1 := by omega
      by_cases hcross1 : 50 < ts1 ∧ ti < 50
      · have hcross2 : 50 < ts2 ∧ ti < 50 := ⟨by linarith [hcross1.1], hcross1.2⟩
        by_cases hkns1 : k = ns1
        · subst hkns1
          rw [predOf_ns t sb sm ti ts1 (by omega), if_pos hcross1]
          by_cases hns1ns2 : k = ns2
          · subst hns1ns2
            rw [predOf_ns t sb sm ti ts2 (by omega), if_pos hcross2]
          · rw [predOf_mid t sb sm ti ts2 hkni hns1ns2,
              if_pos ⟨hcross2, hA hcross1.1 hcross1.2 hlt1⟩]
        · rw [predOf_mid t sb sm ti ts1 hkni hkns1,
            predOf_mid t sb sm ti ts2 hkni (by omega)]
          by_cases hgate : 50 ≤ t (k - 1) <;> simp [hgate, hcross1, hcross2]
      · have e1 : predOf t sb sm ti ts1 ni ns1 k = sb := by
          by_cases hkns1 : k = ns1
          · subst hkns1
            rw [predOf_ns t sb sm ti ts1 (by omega), if_neg hcross1]
          · rw [predOf_mid t sb sm ti ts1 hkni hkns1]
            exact if_neg (fun hand => hcross1 hand.1)
        by_cases hcross2 : 50 < ts2 ∧ ti < 50
        · have hts1 : ts1 ≤ 50 := by
            by_contra hgt
            push_neg at hgt
            exact hcross1 ⟨hgt, hcross2.2⟩
          have hlt12 : ns1 < ns2 := hC hts1 hcross2.1 hcross2.2
          have e2 : predOf t sb sm ti ts2 ni ns2 k = sb := by
            rw [predOf_mid t sb sm ti ts2 hkni (by omega)]
            have hk50 := hB hts1 k (by omega) hk2
            exact if_neg (fun hand => absurd hand.2 (not_le.mpr hk50))
          rw [e1, e2]
        · have e2 : predOf t sb sm ti ts2 ni ns2 k = sb := by
            by_cases hkns2 : k = ns2
            · subst hkns2
              rw [predOf_ns t sb sm ti ts2 (by omega), if_neg hcross2]
            · rw [predOf_mid t sb sm ti ts2 hkni hkns2]
              exact if_neg (fun hand => hcross2 hand.1)
          rw [e1, e2]
  have hswpos : ∀ k, ni ≤ k → k < ns2 + 1 → 0 ≤ swOf t ti ni k := by
    intro k hk1 hk2
    by_cases hkni : k = ni
    · subst hkni
      rw [swOf_ni]
      linarith
    · rw [swOf_mid t ti hkni]
      have hj := hw (k - 1) (by omega) (by omega)
      have hk1' : (k - 1) + 1 = k := by omega
      rw [hk1'] at hj
      linarith
  have hW1 : ∀ k, ni ≤ k → k ≤ ns1 →
      0 ≤ ewOf t ti ts1 ni ns1 k
        ∧ ewOf t ti ts1 ni ns1 k ≤ ewOf t ti ts2 ni ns2 k := by
    intro k hk1 hk2
    by_cases hkns1 : k = ns1
    · rw [hkns1]
      by_cases hni' : ns1 = ni
      · rw [ewOf_single t ti ts1 hni']
        by_cases hni2 : ns2 = ni
        · have h12' : ns1 = ns2 := by omega
          rw [h12', ewOf_single t ti ts2 hni2]
          constructor <;> linarith
        · rw [ewOf_mid t ti ts2 (by omega : ns1 ≠ ns2), hni', swOf_ni]
          have hup1' : ts1 ≤ t ni := by rw [hni'] at hup1; exact hup1
          constructor <;> linarith
      · have hlt1 : ni < ns1 := by omega
        rw [ewOf_ns t ti ts1 (by omega)]
        have hlow1' : t (ns1 - 1) ≤ ts1 := hlow1 hlt1
        by_cases hns : ns1 = ns2
        · have e2 : ewOf t ti ts2 ni ns2 ns1 = ts2 - t (ns1 - 1) := by
            rw [hns]
            exact ewOf_ns t ti ts2 (by omega)
          rw [e2]
          constructor <;> linarith
        · rw [ewOf_mid t ti ts2 hns, swOf_mid t ti (by omega : ns1 ≠ ni)]
          constructor <;> linarith
    · have hklt : k < ns1 := by omega
      rw [ewOf_mid t ti ts1 hkns1, ewOf_mid t ti ts2 (by omega : k ≠ ns2)]
      exact ⟨hswpos k hk1 (by omega), le_refl _⟩
  have hW2 : ∀ k, ni ≤ k → k ≤ ns2 → 0 ≤ ewOf t ti ts2 ni ns2 k := by
    intro k hk1 hk2
    by_cases hkns2 : k = ns2
    · rw [hkns2]
      by_cases hni2 : ns2 = ni
      · rw [ewOf_single t ti ts2 hni2]
        linarith
      · rw [ewOf_ns t ti ts2 (by omega)]
        have := hlow2 (by omega)
        linarith
    · rw [ewOf_mid t ti ts2 hkns2]
      exact hswpos k hk1 (by omega)
  have main : bandSum lam mu (predOf t sb sm ti ts1 ni ns1)
        (ewOf t ti ts1 ni ns1) (swOf t ti ni) ni ns1
      ≤ bandSum lam mu (predOf t sb sm ti ts2 ni ns2)
        (ewOf t ti ts2 ni ns2) (swOf t ti ni) ni ns2 := by
    have e := @bandSum_congr lam mu (predOf t sb sm ti ts1 ni ns1)
      (predOf t sb sm ti ts2 ni ns2) (ewOf t ti ts1 ni ns1)
      (ewOf t ti ts1 ni ns1) (swOf t ti ni) ni ns1 hPeq
      (fun k _ _ => rfl)
    rw [e]
    exact bandSum_mono hlam hmu hni1 hns12 hW1 hW2
  by_cases hb1 : ts1 ≤ t ni
  · rw [riskCore_eq_single t lam mu sb sm ti ts1 ni ns1 hb1 (hsingle1 hb1)]
    by_cases hb2 : ts2 ≤ t ni
    · rw [riskCore_eq_single t lam mu sb sm ti ts2 ni ns2 hb2 (hsingle2 hb2)]
      exact main
    · rw [riskCore_eq_multi t lam mu sb sm ti ts2 ni ns2 hb2 (hmulti2 hb2)]
      exact main
  · have hb2 : ¬ ts2 ≤ t ni := fun hle => hb1 (le_trans h12 hle)
    rw [riskCore_eq_multi t lam mu sb sm ti ts1 ni ns1 hb1 (hmulti1 hb1),
      riskCore_eq_multi t lam mu sb sm ti ts2 ni ns2 hb2 (hmulti2 hb2)]
    exact main

/-! ### Facts about the transcribed tables -/

theorem listGetD_nonneg {l : List ℚ} (h : ∀ x ∈ l, 0 ≤ x) :
    ∀ i, 0 ≤ l.getD i 0 := by
  induction l with
  | nil => intro i; simp
  | cons a l ih =>
      intro i
      cases i with
      | zero => exact h a (List.mem_cons_self a l)
      | succ i => exact ih (fun x hx => h x (List.mem_cons_of_mem a hx)) i

theorem tableGetD_nonneg {ll : List (List ℚ)}
    (h : ∀ L ∈ ll, ∀ x ∈ L, 0 ≤ x) :
    ∀ i c, 0 ≤ (ll.getD c []).getD i 0 := by
  induction ll with
  | nil => intro i c; cases c <;> simp
  | cons L ll ih =>
      intro i c
      cases c with
      | zero =>
          simpa using listGetD_nonneg (h L (List.mem_cons_self L ll)) i
      | succ c =>
          simpa using ih (fun M hM x hx => h M (List.mem_cons_of_mem L hM) x hx) i c

theorem rmu2Q_nonneg : ∀ i c, 0 ≤ rmu2Q i c :=
  tableGetD_nonneg (by
    intro L hL x hx
    fin_cases hL <;> (try simp only [List.map_cons, List.map_nil] at hx) <;>
      fin_cases hx <;> norm_num)

theorem rlan2Q_nonneg : ∀ i c, 0 ≤ rlan2Q i c :=
  tableGetD_nonneg (by
    intro L hL x hx
    fin_cases hL <;> (try simp only [List.map_cons, List.map_nil] at hx) <;>
      fin_cases hx <;> norm_num)

theorem rf2Q_nonneg : ∀ i c, 0 ≤ rf2Q i c :=
  tableGetD_nonneg (by
    intro L hL x hx
    fin_cases hL <;> fin_cases hx <;> norm_num)

/-- The boundary table is strictly increasing on its 15 entries. -/
theorem tQ_strictMono : ∀ k < 15, ∀ j < k, tQ j < tQ k := by decide

theorem tQ_mono_le {j k : ℕ} (hj : j ≤ k) (hk : k ≤ 14) : tQ j ≤ tQ k := by
  rcases Nat.lt_or_ge j k with hlt | hge
  · exact (tQ_strictMono k (by omega) j hlt).le
  · have : j = k := by omega
    rw [this]

/-- Bands with index at least 7 start at or above age 50. -/
theorem tQ_ge50 : ∀ k < 15, 7 ≤ k → 50 ≤ tQ (k - 1) := by decide

/-- Bands with index at most 6 start strictly below age 50. -/
theorem tQ_lt50 : ∀ k < 7, tQ (k - 1) < 50 := by decide

/-! ### Facts about the band searches on integer ages -/

theorem niQ_facts : ∀ a : ℤ, 20 ≤ a → a ≤ 85 →
    1 ≤ niQ a ∧ niQ a ≤ 14 ∧ tQ (niQ a - 1) ≤ (a : ℚ) ∧ (a : ℚ) < tQ (niQ a) := by
  have h : ∀ a ∈ Finset.Icc (20 : ℤ) 85,
      1 ≤ niQ a ∧ niQ a ≤ 14 ∧ tQ (niQ a - 1) ≤ (a : ℚ) ∧ (a : ℚ) < tQ (niQ a) := by
    decide
  intro a h1 h2
  exact h a (Finset.mem_Icc.mpr ⟨h1, h2⟩)

theorem nsQ_facts : ∀ b : ℤ, 21 ≤ b → b ≤ 90 →
    1 ≤ nsQ b ∧ nsQ b ≤ 14 ∧ tQ (nsQ b - 1) < (b : ℚ) ∧ (b : ℚ) ≤ tQ (nsQ b) := by
  have h : ∀ b ∈ Finset.Icc (21 : ℤ) 90,
      1 ≤ nsQ b ∧ nsQ b ≤ 14 ∧ tQ (nsQ b - 1) < (b : ℚ) ∧ (b : ℚ) ≤ tQ (nsQ b) := by
    decide
  intro b h1 h2
  exact h b (Finset.mem_Icc.mpr ⟨h1, h2⟩)

theorem nsQ_ge7 : ∀ b : ℤ, 21 ≤ b → b ≤ 90 → 50 < b → 7 ≤ nsQ b := by
  have h : ∀ b ∈ Finset.Icc (21 : ℤ) 90, 50 < b → 7 ≤ nsQ b := by decide
  intro b h1 h2
  exact h b (Finset.mem_Icc.mpr ⟨h1, h2⟩)

theorem nsQ_le6 : ∀ b : ℤ, 21 ≤ b → b ≤ 90 → b ≤ 50 → nsQ b ≤ 6 := by
  have h : ∀ b ∈ Finset.Icc (21 : ℤ) 90, b ≤ 50 → nsQ b ≤ 6 := by decide
  intro b h1 h2
  exact h b (Finset.mem_Icc.mpr ⟨h1, h2⟩)

/-- The band of the current age never lies beyond the band of a later
projection age. -/
theorem niQ_le_nsQ {a b : ℤ} (ha1 : 20 ≤ a) (ha2 : a ≤ 85)
    (hb1 : a < b) (hb2 : b ≤ 90) : niQ a ≤ nsQ b := by
  obtain ⟨hni1, hni14, hlow, hup⟩ := niQ_facts a ha1 ha2
  obtain ⟨hns1, hns14, hlow', hup'⟩ := nsQ_facts b (by omega) hb2
  by_contra hcon
  push_neg at hcon
  have h1 : tQ (nsQ b) ≤ tQ (niQ a - 1) := tQ_mono_le (by omega) (by omega)
  have hab : (a : ℚ) < (b : ℚ) := by exact_mod_cast hb1
  linarith

/-- The final band is monotone in the projection age. -/
theorem nsQ_mono {b1 b2 : ℤ} (h1 : 21 ≤ b1) (h2 : b2 ≤ 90) (h12 : b1 ≤ b2) :
    nsQ b1 ≤ nsQ b2 := by
  obtain ⟨hn1, hn14, hlowA, hupA⟩ := nsQ_facts b1 h1 (by omega)
  obtain ⟨hm1, hm14, hlowB, hupB⟩ := nsQ_facts b2 (by omega) h2
  by_contra hcon
  push_neg at hcon
  have hmono : tQ (nsQ b2) ≤ tQ (nsQ b1 - 1) := tQ_mono_le (by omega) (by omega)
  have hbb : (b1 : ℚ) ≤ (b2 : ℚ) := by exact_mod_cast h12
  linarith

/-- If the projection age still lies in the current band, the two
searches agree. -/
theorem nsQ_eq_niQ {a b : ℤ} (ha1 : 20 ≤ a) (ha2 : a ≤ 85)
    (hb1 : a < b) (hb2 : b ≤ 90) (hsb : (b : ℚ) ≤ tQ (niQ a)) :
    nsQ b = niQ a := by
  obtain ⟨hni1, hni14, hlow, hup⟩ := niQ_facts a ha1 ha2
  obtain ⟨hns1, hns14, hlow', hup'⟩ := nsQ_facts b (by omega) hb2
  have hab : (a : ℚ) < (b : ℚ) := by exact_mod_cast hb1
  rcases Nat.lt_trichotomy (nsQ b) (niQ a) with hlt | heq | hgt
  · have : tQ (nsQ b) ≤ tQ (niQ a - 1) := tQ_mono_le (by omega) (by omega)
    linarith
  · exact heq
  · have : tQ (niQ a) ≤ tQ (nsQ b - 1) := tQ_mono_le (by omega) (by omega)
    linarith

/-- If the projection age escapes the current band, the final band is
strictly later. -/
theorem niQ_lt_nsQ {a b : ℤ} (ha1 : 20 ≤ a) (ha2 : a ≤ 85)
    (hb1 : a < b) (hb2 : b ≤ 90) (hsb : ¬ (b : ℚ) ≤ tQ (niQ a)) :
    niQ a < nsQ b := by
  obtain ⟨hni1, hni14, hlow, hup⟩ := niQ_facts a ha1 ha2
  obtain ⟨hns1, hns14, hlow', hup'⟩ := nsQ_facts b (by omega) hb2
  push_neg at hsb
  by_contra hcon
  push_neg at hcon
  have : tQ (nsQ b) ≤ tQ (niQ a) := tQ_mono_le (by omega) (by omega)
  linarith

/-! ### The calculator state (GailRiskCalculator, lines 107-131)

The instance holds the master tables (`bet2`, `rlan2`, `rmu2`, `rf2`,
`t`) written only by `initialize`, and the scratch arrays (`bet`, `rf`,
`abs`, `rlan`, `rmu`, `sumb`, `sumbb`) that `_calculate_risk` rewrites
on every call.  Arrays are modelled as total functions; the Python
arrays have fixed lengths (8, 2, 216, 14, 216, 216, 15), and the state
update of a call only changes entries within those lengths. -/
structure CalcState where
  bet2 : ℕ → ℕ → ℝ
  bet : ℕ → ℝ
  rf : ℕ → ℝ
  rf2 : ℕ → ℕ → ℝ
  absArr : ℕ → ℝ
  rlan : ℕ → ℝ
  rlan2 : ℕ → ℕ → ℝ
  rmu : ℕ → ℝ
  rmu2 : ℕ → ℕ → ℝ
  sumb : ℕ → ℝ
  sumbb : ℕ → ℝ
  t : ℕ → ℝ
  inited : Bool

/-- `GailRiskCalculator.__init__` (lines 117-131): every array starts at
zero and `is_initialized` (field `inited` here) is `False`. -/
def zeroState : CalcState :=
  { bet2 := fun _ _ => 0, bet := fun _ => 0, rf := fun _ => 0,
    rf2 := fun _ _ => 0, absArr := fun _ => 0, rlan := fun _ => 0,
    rlan2 := fun _ _ => 0, rmu := fun _ => 0, rmu2 := fun _ _ => 0,
    sumb := fun _ => 0, sumbb := fun _ => 0, t := fun _ => 0,
    inited := false }

/-- `GailRiskCalculator.initialize` (lines 133-383): fills the master
tables and sets `is_initialized = True`; it does not touch the scratch
arrays. -/
def initTables (s : CalcState) : CalcState :=
  { s with
    t := fun j => ((tQ j : ℚ) : ℝ),
    rmu2 := fun i c => ((rmu2Q i c : ℚ) : ℝ),
    rlan2 := fun i c => ((rlan2Q i c : ℚ) : ℝ),
    bet2 := fun j c => ((bet2Q j c : ℚ) : ℝ),
    rf2 := fun j c => ((rf2Q j c : ℚ) : ℝ),
    inited := true }

/-- `create_calculator()` (lines 703-707): a fresh instance with the
tables loaded. -/
def initState : CalcState := initTables zeroState

/-- Hyperplasia adjustment of the centred predictors
(lines 619-622):
`self.sumbb[i-1] += np.log(rhyp)`
`if i <= 108: self.sumbb[i+107] += np.log(rhyp)`.
For `i > 108` no second entry is touched. -/
noncomputable def hypAdjust (sumbb0 : ℕ → ℝ) (ilev : ℤ) (rhyp : ℝ) : ℕ → ℝ :=
  let s1 := Function.update sumbb0 (ilev - 1).toNat
      (sumbb0 (ilev - 1).toNat + Real.log rhyp)
  if ilev ≤ 108 then
    Function.update s1 (ilev + 107).toNat (s1 (ilev + 107).toNat + Real.log rhyp)
  else s1

/-- The condition under which all `sumbb` accesses of a
`_calculate_risk` call stay inside the 216-entry array: the base slot
`ilev-1` (read at lines 620 and 627-696, written at line 620) needs
`1 ≤ ilev ≤ 216`, and the mirror slot `ilev+107` is read (lines 641-683)
exactly when the age-50-crossing branch
`ProjectionAge > 50 and CurrentAge < 50` is active, which then needs
`ilev ≤ 108`.  (The guarded mirror write of line 622 is safe whenever
`ilev ≤ 108`, so it adds no constraint.)  Outside this condition the
Python code raises an IndexError — still not a PatternOutOfRange. -/
def sumbbAccessInBounds (CurrentAge ProjectionAge ilev : ℤ) : Prop :=
  1 ≤ ilev ∧ ilev ≤ 216 ∧ (50 < ProjectionAge ∧ CurrentAge < 50 → ilev ≤ 108)

/-- `GailRiskCalculator._calculate_risk` (lines 502-698), as a
state-passing function returning the updated instance and the returned
risk.  Inside the Python method every instance array that the method
reads (`bet`, `rmu`, `rlan`, `rf`, `sumb`, `sumbb`) is fully rewritten
at all read indices *before* the first read, so the overwrite-then-read
sequence is modelled by the let-bound locals below; the returned state
stores the same values back into the corresponding fields (entries
beyond each Python array's length keep their previous value).
The mirrored predictor `self.sumbb[i+107]` is passed to `riskCore`
eagerly and all array reads are modelled as total functions; Python
reads the mirror slot only in the age-50-crossing branch, where
in-range categories force `i <= 108`, so the model agrees with Python
exactly on calls satisfying `sumbbAccessInBounds`; on calls violating
it (out-of-range categories with the crossing branch active, or a
pattern index beyond 216) Python raises an IndexError instead, which
this total model does not reproduce. -/
noncomputable def calculate_risk (s : CalcState)
    (riskindex CurrentAge ProjectionAge AgeIndicator NumberOfBiopsy
     MenarcheAge FirstLiveBirthAge EverHadBiopsy FirstDegRelatives
     ihyp : ℤ) (rhyp : ℝ) (irace : ℤ) : CalcState × ℝ :=
  let ti : ℝ := (CurrentAge : ℝ)
  let ts : ℝ := (ProjectionAge : ℝ)
  -- lines 521-522: select the race's beta column
  let bet : ℕ → ℝ := fun j => s.bet2 j (irace - 1).toNat
  -- lines 525-527: African-American legacy recode
  let Menarche1 : ℤ := if irace = 2 ∧ MenarcheAge = 2 then 1 else MenarcheAge
  let FirstBirth1 : ℤ :=
    if irace = 2 ∧ MenarcheAge = 2 then 0 else FirstLiveBirthAge
  -- lines 529-540: locate the bands of ti and ts
  let ni : ℕ := bandScan fun j => decide (ti < s.t j)
  let ns : ℕ := bandScan fun j => decide (ts ≤ s.t j)
  -- lines 542-543
  let incr : ℤ := if riskindex = 2 ∧ irace < 7 then 3 else 0
  let cindx : ℕ := (incr + irace - 1).toNat
  -- lines 545-547: select mortality and incidence columns
  let rmu : ℕ → ℝ := fun i => s.rmu2 i cindx
  let rlanRaw : ℕ → ℝ := fun i => s.rlan2 i cindx
  -- lines 549-554: conversion factors (column 12 for Asian averages)
  let rf : ℕ → ℝ := fun j =>
    if riskindex = 2 ∧ 7 ≤ irace then s.rf2 j 12 else s.rf2 j cindx
  -- lines 556-561: population-average overrides
  let Menarche : ℤ := if 2 ≤ riskindex then 0 else Menarche1
  let Biopsy : ℤ := if 2 ≤ riskindex then 0 else NumberOfBiopsy
  let FirstBirth : ℤ := if 2 ≤ riskindex then 0 else FirstBirth1
  let Relatives : ℤ := if 2 ≤ riskindex then 0 else FirstDegRelatives
  let rhyp1 : ℝ := if 2 ≤ riskindex then 1 else rhyp
  -- lines 563-564
  let ilev : ℤ := patternIndex AgeIndicator Menarche Biopsy FirstBirth Relatives
  -- lines 566-607: design matrix and raw predictor sumb
  let sumb : ℕ → ℝ := fun i =>
    Finset.sum (Finset.range 8) fun j => bet j * ((designX i j : ℕ) : ℝ)
  -- lines 609-612: centring (patterns 1-108 / 109-216)
  let sumbb0 : ℕ → ℝ := fun i =>
    if i < 108 then sumb i - bet 0 else sumb i - bet 0 - bet 1
  -- lines 614-617: attributable-risk scaling of the incidence
  let rlan : ℕ → ℝ := fun j => if j < 6 then rlanRaw j * rf 0 else rlanRaw j * rf 1
  -- lines 619-622: hyperplasia adjustment
  let sumbb : ℕ → ℝ := hypAdjust sumbb0 ilev rhyp1
  -- lines 624-698: hazard integration
  let result : ℝ := riskCore s.t rlan rmu
    (sumbb (ilev - 1).toNat) (sumbb (ilev + 107).toNat) ti ts ni ns
  ({ s with
      bet := bet,
      rmu := fun i => if i < 14 then rmu i else s.rmu i,
      rlan := fun i => if i < 14 then rlan i else s.rlan i,
      rf := fun j => if j < 2 then rf j else s.rf j,
      sumb := fun i => if i < 216 then sumb i else s.sumb i,
      sumbb := fun i => if i < 216 then sumbb i else s.sumbb i,
      absArr := Function.update s.absArr (ilev - 1).toNat result },
    result)

/-- `GailRiskCalculator._calculate_risk_api` (lines 469-500):
age-indicator computation, biopsy cleaning, hyperplasia multiplier,
relatives recoding, then the core call. -/
noncomputable def calculate_risk_api (s : CalcState)
    (risk_index current_age projection_age menarche_age
     first_live_birth_age first_deg_relatives ever_had_biopsy
     number_of_biopsy hyperplasia race : ℤ) : CalcState × ℝ :=
  -- line 476
  let age_indicator : ℤ := if 50 ≤ current_age then 1 else 0
  -- lines 478-480
  let cleaned := clean_biopsy_inputs ever_had_biopsy number_of_biopsy hyperplasia
  -- lines 482-487
  let real_hyp : ℝ :=
    if cleaned.2.2 = 1 then 1.82 else if cleaned.2.2 = 0 then 0.93 else 1
  -- lines 489-494
  let fdr : ℤ :=
    if first_deg_relatives = 0 ∨ first_deg_relatives = 99 then 0
    else if 2 ≤ first_deg_relatives ∧ first_deg_relatives ≤ 31 ∧ race < 7 then 2
    else if 2 ≤ first_deg_relatives ∧ 7 ≤ race then 1
    else first_deg_relatives
  -- lines 496-500
  calculate_risk s risk_index current_age projection_age age_indicator
    cleaned.2.1 menarche_age first_live_birth_age cleaned.1 fdr
    cleaned.2.2 real_hyp race

/-- `GailInputParams` (lines 44-55). -/
structure GailInputParams where
  current_age : ℤ
  projection_age : ℤ
  menarche_age : ℤ
  first_live_birth_age : ℤ
  first_deg_relatives : ℤ
  ever_had_biopsy : ℤ := 99
  number_of_biopsy : ℤ := 99
  hyperplasia : ℤ := 99
  race : ℤ := 1

/-- `GailInputParams.validate` (lines 57-73): current age in `[20,85]`,
projection age strictly above the current age and at most 90. -/
def validateParams (p : GailInputParams) : Bool :=
  decide (20 ≤ p.current_age ∧ p.current_age ≤ 85) &&
  decide (p.current_age < p.projection_age) &&
  decide (p.projection_age ≤ 90)

/-- `GailResult` (lines 76-83). -/
structure GailResult where
  absolute_risk : ℝ
  average_risk : ℝ
  relative_risk : ℝ
  current_age : ℤ
  projection_age : ℤ

/-- `calculate_absolute_risk` (lines 409-422): RuntimeError when the
instance is not initialised, otherwise the core call with
`RiskIndexType.ABSOLUTE = 1`. -/
noncomputable def calculate_absolute_risk (s : CalcState)
    (current_age projection_age menarche_age first_live_birth_age
     first_deg_relatives ever_had_biopsy number_of_biopsy hyperplasia
     race : ℤ) : Except PyError (CalcState × ℝ) :=
  if s.inited then
    Except.ok (calculate_risk_api s 1 current_age projection_age
      menarche_age first_live_birth_age first_deg_relatives
      ever_had_biopsy number_of_biopsy hyperplasia race)
  else Except.error PyError.runtimeError

/-- `calculate_average_risk` (lines 424-437): like the absolute entry
point but with `RiskIndexType.AVERAGE = 2`. -/
noncomputable def calculate_average_risk (s : CalcState)
    (current_age projection_age menarche_age first_live_birth_age
     first_deg_relatives ever_had_biopsy number_of_biopsy hyperplasia
     race : ℤ) : Except PyError (CalcState × ℝ) :=
  if s.inited then
    Except.ok (calculate_risk_api s 2 current_age projection_age
      menarche_age first_live_birth_age first_deg_relatives
      ever_had_biopsy number_of_biopsy hyperplasia race)
  else Except.error PyError.runtimeError

/-- `calculate_full_risk` (lines 439-467): validation (ValueError on
failure), then the absolute and the average computation on the same
instance, then `relative_risk = abs/avg if avg > 0 else 0.0`. -/
noncomputable def calculate_full_risk (s : CalcState) (p : GailInputParams) :
    Except PyError (CalcState × GailResult) :=
  if validateParams p then
    match calculate_absolute_risk s p.current_age p.projection_age
        p.menarche_age p.first_live_birth_age p.first_deg_relatives
        p.ever_had_biopsy p.number_of_biopsy p.hyperplasia p.race with
    | Except.error e => Except.error e
    | Except.ok (s1, absR) =>
      match calculate_average_risk s1 p.current_age p.projection_age
          p.menarche_age p.first_live_birth_age p.first_deg_relatives
          p.ever_had_biopsy p.number_of_biopsy p.hyperplasia p.race with
      | Except.error e => Except.error e
      | Except.ok (s2, avgR) =>
        Except.ok (s2,
          { absolute_risk := absR, average_risk := avgR,
            relative_risk := if 0 < avgR then absR / avgR else 0,
            current_age := p.current_age,
            projection_age := p.projection_age })
  else Except.error PyError.valueError

/-! ### General lemmas about the state transition -/

/-- A core call never touches the master tables (`bet2`, `rlan2`,
`rmu2`, `rf2`, `t`) nor the initialisation flag: the state update of
`_calculate_risk` assigns only the scratch arrays. -/
theorem calculate_risk_masters (s : CalcState)
    (riskindex CurrentAge ProjectionAge AgeIndicator NumberOfBiopsy
     MenarcheAge FirstLiveBirthAge EverHadBiopsy FirstDegRelatives
     ihyp : ℤ) (rhyp : ℝ) (irace : ℤ) :
    ((calculate_risk s riskindex CurrentAge ProjectionAge AgeIndicator
        NumberOfBiopsy MenarcheAge FirstLiveBirthAge EverHadBiopsy
        FirstDegRelatives ihyp rhyp irace).1).bet2 = s.bet2
    ∧ ((calculate_risk s riskindex CurrentAge ProjectionAge AgeIndicator
        NumberOfBiopsy MenarcheAge FirstLiveBirthAge EverHadBiopsy
        FirstDegRelatives ihyp rhyp irace).1).rlan2 = s.rlan2
    ∧ ((calculate_risk s riskindex CurrentAge ProjectionAge AgeIndicator
        NumberOfBiopsy MenarcheAge FirstLiveBirthAge EverHadBiopsy
        FirstDegRelatives ihyp rhyp irace).1).rmu2 = s.rmu2
    ∧ ((calculate_risk s riskindex CurrentAge ProjectionAge AgeIndicator
        NumberOfBiopsy MenarcheAge FirstLiveBirthAge EverHadBiopsy
        FirstDegRelatives ihyp rhyp irace).1).rf2 = s.rf2
    ∧ ((calculate_risk s riskindex CurrentAge ProjectionAge AgeIndicator
        NumberOfBiopsy MenarcheAge FirstLiveBirthAge EverHadBiopsy
        FirstDegRelatives ihyp rhyp irace).1).t = s.t
    ∧ ((calculate_risk s riskindex CurrentAge ProjectionAge AgeIndicator
        NumberOfBiopsy MenarcheAge FirstLiveBirthAge EverHadBiopsy
        FirstDegRelatives ihyp rhyp irace).1).inited = s.inited :=
  ⟨rfl, rfl, rfl, rfl, rfl, rfl⟩

/-- Same preservation through the API wrapper. -/
theorem calculate_risk_api_masters (s : CalcState)
    (risk_index current_age projection_age menarche_age
     first_live_birth_age first_deg_relatives ever_had_biopsy
     number_of_biopsy hyperplasia race : ℤ) :
    ((calculate_risk_api s risk_index current_age projection_age
        menarche_age first_live_birth_age first_deg_relatives
        ever_had_biopsy number_of_biopsy hyperplasia race).1).bet2 = s.bet2
    ∧ ((calculate_risk_api s risk_index current_age projection_age
        menarche_age first_live_birth_age first_deg_relatives
        ever_had_biopsy number_of_biopsy hyperplasia race).1).rlan2 = s.rlan2
    ∧ ((calculate_risk_api s risk_index current_age projection_age
        menarche_age first_live_birth_age first_deg_relatives
        ever_had_biopsy number_of_biopsy hyperplasia race).1).rmu2 = s.rmu2
    ∧ ((calculate_risk_api s risk_index current_age projection_age
        menarche_age first_live_birth_age first_deg_relatives
        ever_had_biopsy number_of_biopsy hyperplasia race).1).rf2 = s.rf2
    ∧ ((calculate_risk_api s risk_index current_age projection_age
        menarche_age first_live_birth_age first_deg_relatives
        ever_had_biopsy number_of_biopsy hyperplasia race).1).t = s.t
    ∧ ((calculate_risk_api s risk_index current_age projection_age
        menarche_age first_live_birth_age first_deg_relatives
        ever_had_biopsy number_of_biopsy hyperplasia race).1).inited = s.inited :=
  ⟨rfl, rfl, rfl, rfl, rfl, rfl⟩

/-- The value returned by a core call depends only on the master
tables: every scratch array is fully rewritten (at the indices that the
call subsequently reads) before being read. -/
theorem calculate_risk_result_ext (s s' : CalcState)
    (riskindex CurrentAge ProjectionAge AgeIndicator NumberOfBiopsy
     MenarcheAge FirstLiveBirthAge EverHadBiopsy FirstDegRelatives
     ihyp : ℤ) (rhyp : ℝ) (irace : ℤ)
    (h1 : s.bet2 = s'.bet2) (h2 : s.rlan2 = s'.rlan2)
    (h3 : s.rmu2 = s'.rmu2) (h4 : s.rf2 = s'.rf2) (h5 : s.t = s'.t) :
    (calculate_risk s riskindex CurrentAge ProjectionAge AgeIndicator
        NumberOfBiopsy MenarcheAge FirstLiveBirthAge EverHadBiopsy
        FirstDegRelatives ihyp rhyp irace).2
      = (calculate_risk s' riskindex CurrentAge ProjectionAge AgeIndicator
        NumberOfBiopsy MenarcheAge FirstLiveBirthAge EverHadBiopsy
        FirstDegRelatives ihyp rhyp irace).2 := by
  simp only [calculate_risk]
  rw [h1, h2, h3, h4, h5]

/-- The API wrapper's returned value also depends only on the master
tables. -/
theorem calculate_risk_api_result_ext (s s' : CalcState)
    (risk_index current_age projection_age menarche_age
     first_live_birth_age first_deg_relatives ever_had_biopsy
     number_of_biopsy hyperplasia race : ℤ)
    (h1 : s.bet2 = s'.bet2) (h2 : s.rlan2 = s'.rlan2)
    (h3 : s.rmu2 = s'.rmu2) (h4 : s.rf2 = s'.rf2) (h5 : s.t = s'.t) :
    (calculate_risk_api s risk_index current_age projection_age
        menarche_age first_live_birth_age first_deg_relatives
        ever_had_biopsy number_of_biopsy hyperplasia race).2
      = (calculate_risk_api s' risk_index current_age projection_age
        menarche_age first_live_birth_age first_deg_relatives
        ever_had_biopsy number_of_biopsy hyperplasia race).2 := by
  simp only [calculate_risk_api]
  exact calculate_risk_result_ext s s' _ _ _ _ _ _ _ _ _ _ _ _ h1 h2 h3 h4 h5

/-! ### Bridging the initialised state's tables to their rational
transcriptions -/

theorem initState_t (j : ℕ) : initState.t j = ((tQ j : ℚ) : ℝ) := rfl

theorem initState_rmu2_nonneg (i c : ℕ) : (0 : ℝ) ≤ initState.rmu2 i c := by
  have h : initState.rmu2 i c = ((rmu2Q i c : ℚ) : ℝ) := rfl
  rw [h]
  exact_mod_cast rmu2Q_nonneg i c

theorem initState_rlan2_nonneg (i c : ℕ) : (0 : ℝ) ≤ initState.rlan2 i c := by
  have h : initState.rlan2 i c = ((rlan2Q i c : ℚ) : ℝ) := rfl
  rw [h]
  exact_mod_cast rlan2Q_nonneg i c

theorem initState_rf2_nonneg (i c : ℕ) : (0 : ℝ) ≤ initState.rf2 i c := by
  have h : initState.rf2 i c = ((rf2Q i c : ℚ) : ℝ) := rfl
  rw [h]
  exact_mod_cast rf2Q_nonneg i c

theorem bandScan_funext {c c' : ℕ → Bool} (h : ∀ j, c j = c' j) :
    bandScan c = bandScan c' := by
  have he : c = c' := funext h
  rw [he]

/-- The band search of the code, run on the initialised boundary table
with an integer current age, is the rational-level search `niQ`. -/
theorem bandScan_ni_cast (a : ℤ) :
    bandScan (fun j => decide ((a : ℝ) < initState.t j)) = niQ a := by
  unfold niQ
  apply bandScan_funext
  intro j
  apply decide_eq_decide.mpr
  rw [initState_t]
  constructor <;> intro h <;> exact_mod_cast h

/-- Likewise for the projection-age search `ns`. -/
theorem bandScan_ns_cast (b : ℤ) :
    bandScan (fun j => decide ((b : ℝ) ≤ initState.t j)) = nsQ b := by
  unfold nsQ
  apply bandScan_funext
  intro j
  apply decide_eq_decide.mpr
  rw [initState_t]
  constructor <;> intro h <;> exact_mod_cast h

/-- The value returned by a core call on the initialised calculator is
in `[0,1]` for every in-range age pair, independently of the category
arguments (the tables are nonnegative in every column). -/
theorem calculate_risk_bounds (riskindex ca pa ai nb men fb ev rel ih : ℤ)
    (rh : ℝ) (race : ℤ)
    (hca1 : 20 ≤ ca) (hca2 : ca ≤ 85) (hpa1 : ca < pa) (hpa2 : pa ≤ 90) :
    0 ≤ (calculate_risk initState riskindex ca pa ai nb men fb ev rel
        ih rh race).2
    ∧ (calculate_risk initState riskindex ca pa ai nb men fb ev rel
        ih rh race).2 ≤ 1 := by
  obtain ⟨hni1, hni14, hnlow, hnup⟩ := niQ_facts ca hca1 hca2
  obtain ⟨hns1, hns14, hslow, hsup⟩ := nsQ_facts pa (by omega) hpa2
  simp only [calculate_risk]
  rw [bandScan_ni_cast ca, bandScan_ns_cast pa]
  apply riskCore_bounds
  · intro k
    split_ifs <;>
      exact mul_nonneg (initState_rlan2_nonneg _ _) (initState_rf2_nonneg _ _)
  · intro k
    exact initState_rmu2_nonneg _ _
  · exact_mod_cast le_of_lt hpa1
  · rw [initState_t]
    exact_mod_cast le_of_lt hnup
  · intro hb
    have hbQ : ¬ (pa : ℚ) ≤ tQ (niQ ca) := by
      intro hcon
      apply hb
      rw [initState_t]
      exact_mod_cast hcon
    refine ⟨niQ_lt_nsQ hca1 hca2 hpa1 hpa2 hbQ, ?_, ?_, ?_⟩
    · rw [initState_t]
      exact_mod_cast le_of_lt hslow
    · rw [initState_t]
      exact_mod_cast hsup
    · intro j hj1 hj2
      rw [initState_t, initState_t]
      exact_mod_cast tQ_mono_le (Nat.le_succ j) (by omega)

/-- The value returned by a core call on the initialised calculator is
monotone in the projection age, all other arguments fixed. -/
theorem calculate_risk_mono (riskindex ca pa1 pa2 ai nb men fb ev rel ih : ℤ)
    (rh : ℝ) (race : ℤ)
    (hca1 : 20 ≤ ca) (hca2 : ca ≤ 85)
    (hpa1 : ca < pa1) (hpa12 : pa1 ≤ pa2) (hpa2 : pa2 ≤ 90) :
    (calculate_risk initState riskindex ca pa1 ai nb men fb ev rel
        ih rh race).2
    ≤ (calculate_risk initState riskindex ca pa2 ai nb men fb ev rel
        ih rh race).2 := by
  obtain ⟨hni1, hni14, hnlow, hnup⟩ := niQ_facts ca hca1 hca2
  obtain ⟨hn1a, hn1b, hn1low, hn1up⟩ := nsQ_facts pa1 (by omega) (by omega)
  obtain ⟨hn2a, hn2b, hn2low, hn2up⟩ := nsQ_facts pa2 (by omega) hpa2
  simp only [calculate_risk]
  rw [bandScan_ni_cast ca, bandScan_ns_cast pa1, bandScan_ns_cast pa2]
  apply riskCore_mono
  · intro k
    split_ifs <;>
      exact mul_nonneg (initState_rlan2_nonneg _ _) (initState_rf2_nonneg _ _)
  · intro k
    exact initState_rmu2_nonneg _ _
  · exact_mod_cast le_of_lt hpa1
  · exact_mod_cast hpa12
  · exact niQ_le_nsQ hca1 hca2 hpa1 (by omega)
  · exact nsQ_mono (by omega) hpa2 hpa12
  · rw [initState_t]
    exact_mod_cast le_of_lt hnup
  · rw [initState_t]
    exact_mod_cast hn1up
  · rw [initState_t]
    exact_mod_cast hn2up
  · intro _
    rw [initState_t]
    exact_mod_cast le_of_lt hn1low
  · intro _
    rw [initState_t]
    exact_mod_cast le_of_lt hn2low
  · intro hb
    apply nsQ_eq_niQ hca1 hca2 hpa1 (by omega)
    rw [initState_t] at hb
    exact_mod_cast hb
  · intro hb
    apply niQ_lt_nsQ hca1 hca2 hpa1 (by omega)
    intro hcon
    apply hb
    rw [initState_t]
    exact_mod_cast hcon
  · intro hb
    apply nsQ_eq_niQ hca1 hca2 (by omega) hpa2
    rw [initState_t] at hb
    exact_mod_cast hb
  · intro hb
    apply niQ_lt_nsQ hca1 hca2 (by omega) hpa2
    intro hcon
    apply hb
    rw [initState_t]
    exact_mod_cast hcon
  · intro j hj1 hj2
    rw [initState_t, initState_t]
    exact_mod_cast tQ_mono_le (Nat.le_succ j) (by omega)
  · intro h50 hti hlt
    have h50' : (50 : ℤ) < pa1 := by exact_mod_cast h50
    have h7 : 7 ≤ nsQ pa1 := nsQ_ge7 pa1 (by omega) (by omega) h50'
    rw [initState_t]
    exact_mod_cast tQ_ge50 (nsQ pa1) (by omega) h7
  · intro h50 k hk1 hk2
    have h50' : pa1 ≤ (50 : ℤ) := by exact_mod_cast h50
    have h6 : nsQ pa1 ≤ 6 := nsQ_le6 pa1 (by omega) (by omega) h50'
    rw [initState_t]
    exact_mod_cast tQ_lt50 k (by omega)
  · intro h50a h50b hti
    have h1' : pa1 ≤ (50 : ℤ) := by exact_mod_cast h50a
    have h2' : (50 : ℤ) < pa2 := by exact_mod_cast h50b
    have hx := nsQ_le6 pa1 (by omega) (by omega) h1'
    have hy := nsQ_ge7 pa2 (by omega) hpa2 h2'
    omega

/-! ### Claim theorems -/

/-- C3: for every valid query (20 ≤ currentAge ≤ 85,
currentAge < projectionAge ≤ 90, race in 1..12, categories within their
cardinalities — the category/biopsy/relatives hypotheses delimit inputs
whose recoded categories stay inside the 216-pattern table), the
absolute risk and the average risk returned by the integrator are each
in [0,1]. -/
theorem c3_risks_in_unit_interval (ca pa men fb rel ever nb hyp race : ℤ)
    (hca1 : 20 ≤ ca) (hca2 : ca ≤ 85) (hpa1 : ca < pa) (hpa2 : pa ≤ 90)
    (hrace1 : 1 ≤ race) (hrace2 : race ≤ 12)
    (hm1 : 0 ≤ men) (hm2 : men ≤ 2) (hf1 : 0 ≤ fb) (hf2 : fb ≤ 3)
    (hev : ever = 0 ∨ ever = 1 ∨ ever = 99)
    (hnb1 : 0 ≤ nb) (hnb2 : nb ≤ 30 ∨ nb = 99)
    (hrel : (0 ≤ rel ∧ rel ≤ 31) ∨ rel = 99) :
    ∃ sA rA sB rB,
      calculate_absolute_risk initState ca pa men fb rel ever nb hyp race
        = Except.ok (sA, rA)
      ∧ calculate_average_risk initState ca pa men fb rel ever nb hyp race
        = Except.ok (sB, rB)
      ∧ 0 ≤ rA ∧ rA ≤ 1 ∧ 0 ≤ rB ∧ rB ≤ 1 := by
  refine ⟨(calculate_risk_api initState 1 ca pa men fb rel ever nb hyp race).1,
    (calculate_risk_api initState 1 ca pa men fb rel ever nb hyp race).2,
    (calculate_risk_api initState 2 ca pa men fb rel ever nb hyp race).1,
    (calculate_risk_api initState 2 ca pa men fb rel ever nb hyp race).2,
    ?_, ?_, ?_, ?_, ?_, ?_⟩
  · unfold calculate_absolute_risk
    rw [if_pos (show initState.inited = true from rfl)]
  · unfold calculate_average_risk
    rw [if_pos (show initState.inited = true from rfl)]
  · simp only [calculate_risk_api]
    exact (calculate_risk_bounds _ _ _ _ _ _ _ _ _ _ _ _
      hca1 hca2 hpa1 hpa2).1
  · simp only [calculate_risk_api]
    exact (calculate_risk_bounds _ _ _ _ _ _ _ _ _ _ _ _
      hca1 hca2 hpa1 hpa2).2
  · simp only [calculate_risk_api]
    exact (calculate_risk_bounds _ _ _ _ _ _ _ _ _ _ _ _
      hca1 hca2 hpa1 hpa2).1
  · simp only [calculate_risk_api]
    exact (calculate_risk_bounds _ _ _ _ _ _ _ _ _ _ _ _
      hca1 hca2 hpa1 hpa2).2

/-- Witness for C3 at a valid query. -/
theorem c3_risks_in_unit_interval_witness :
    (20 ≤ (35 : ℤ) ∧ (35 : ℤ) < 40 ∧ (40 : ℤ) ≤ 90)
    ∧ ∃ sA rA sB rB,
      calculate_absolute_risk initState 35 40 2 0 0 1 1 1 1
        = Except.ok (sA, rA)
      ∧ calculate_average_risk initState 35 40 2 0 0 1 1 1 1
        = Except.ok (sB, rB)
      ∧ 0 ≤ rA ∧ rA ≤ 1 ∧ 0 ≤ rB ∧ rB ≤ 1 :=
  ⟨by decide,
   c3_risks_in_unit_interval 35 40 2 0 0 1 1 1 1 (by decide) (by decide)
     (by decide) (by decide) (by decide) (by decide) (by decide)
     (by decide) (by decide) (by decide) (Or.inr (Or.inl rfl))
     (by decide) (Or.inl (by decide)) (Or.inl (by decide))⟩

/-- C4: for fixed currentAge, race and category inputs, the absolute
risk is monotone non-decreasing in the projection age: for
currentAge < p1 ≤ p2 ≤ 90 the risk over [currentAge, p1] is at most
the risk over [currentAge, p2]. -/
theorem c4_monotone_projection (ca pa1 pa2 men fb rel ever nb hyp race : ℤ)
    (hca1 : 20 ≤ ca) (hca2 : ca ≤ 85)
    (hpa1 : ca < pa1) (hpa12 : pa1 ≤ pa2) (hpa2 : pa2 ≤ 90)
    (hrace1 : 1 ≤ race) (hrace2 : race ≤ 12)
    (hm1 : 0 ≤ men) (hm2 : men ≤ 2) (hf1 : 0 ≤ fb) (hf2 : fb ≤ 3)
    (hev : ever = 0 ∨ ever = 1 ∨ ever = 99)
    (hnb1 : 0 ≤ nb) (hnb2 : nb ≤ 30 ∨ nb = 99)
    (hrel : (0 ≤ rel ∧ rel ≤ 31) ∨ rel = 99) :
    ∃ s1 r1 s2 r2,
      calculate_absolute_risk initState ca pa1 men fb rel ever nb hyp race
        = Except.ok (s1, r1)
      ∧ calculate_absolute_risk initState ca pa2 men fb rel ever nb hyp race
        = Except.ok (s2, r2)
      ∧ r1 ≤ r2 := by
  refine ⟨(calculate_risk_api initState 1 ca pa1 men fb rel ever nb hyp race).1,
    (calculate_risk_api initState 1 ca pa1 men fb rel ever nb hyp race).2,
    (calculate_risk_api initState 1 ca pa2 men fb rel ever nb hyp race).1,
    (calculate_risk_api initState 1 ca pa2 men fb rel ever nb hyp race).2,
    ?_, ?_, ?_⟩
  · unfold calculate_absolute_risk
    rw [if_pos (show initState.inited = true from rfl)]
  · unfold calculate_absolute_risk
    rw [if_pos (show initState.inited = true from rfl)]
  · simp only [calculate_risk_api]
    exact calculate_risk_mono _ _ _ _ _ _ _ _ _ _ _ _ _
      hca1 hca2 hpa1 hpa12 hpa2

/-- Witness for C4 at a valid query crossing age 50. -/
theorem c4_monotone_projection_witness :
    ((35 : ℤ) < 45 ∧ (45 : ℤ) ≤ 60 ∧ (60 : ℤ) ≤ 90)
    ∧ ∃ s1 r1 s2 r2,
      calculate_absolute_risk initState 35 45 2 0 0 1 1 1 1
        = Except.ok (s1, r1)
      ∧ calculate_absolute_risk initState 35 60 2 0 0 1 1 1 1
        = Except.ok (s2, r2)
      ∧ r1 ≤ r2 :=
  ⟨by decide,
   c4_monotone_projection 35 45 60 2 0 0 1 1 1 1 (by decide) (by decide)
     (by decide) (by decide) (by decide) (by decide) (by decide)
     (by decide) (by decide) (by decide) (by decide)
     (Or.inr (Or.inl rfl)) (by decide) (Or.inl (by decide))
     (Or.inl (by decide))⟩

/-- C1 (counterexample): at pattern k = 49 (age-indicator 0, menarche 1,
biopsy-count 1, first-birth 0, relatives 0) the design value at
position 6 built by lines 566-601 is 0 (age-indicator × biopsy-count),
while the claimed menarche × biopsy-count would be 1.  So design
position 6 does NOT equal menarche×biopsyCount. -/
theorem c1_counterexample :
    designX (49 - 1) 6 ≠ menarcheOf 49 * biopsyOf 49 := by decide

/-- C1 (amended): for every pattern index k in [1,216], the 8-position
design vector used for `sumb[k]` is {intercept=1, ageIndicator,
menarche, biopsyCount, firstBirth, relatives,
ageIndicator×biopsyCount, firstBirth×relatives}, where the five factors
are the block decomposition of k (blocks of 108, 36, 12, 3, 1); in
particular design position 6 equals ageIndicator×biopsyCount, not
menarche×biopsyCount. -/
theorem c1_design_vector (k : ℕ) (h1 : 1 ≤ k) (h2 : k ≤ 216) :
    designX (k - 1) 0 = 1
    ∧ designX (k - 1) 1 = ageIndOf k
    ∧ designX (k - 1) 2 = menarcheOf k
    ∧ designX (k - 1) 3 = biopsyOf k
    ∧ designX (k - 1) 4 = firstBirthOf k
    ∧ designX (k - 1) 5 = relativesOf k
    ∧ designX (k - 1) 6 = ageIndOf k * biopsyOf k
    ∧ designX (k - 1) 7 = firstBirthOf k * relativesOf k := by
  have hage : (if k - 1 < 108 then (0 : ℕ) else 1) = (k - 1) / 108 := by
    split_ifs with h <;> omega
  refine ⟨rfl, ?_, rfl, rfl, rfl, rfl, ?_, rfl⟩
  · show (if k - 1 < 108 then (0 : ℕ) else 1) = (k - 1) / 108
    exact hage
  · show (if k - 1 < 108 then (0 : ℕ) else 1) * ((k - 1) % 36 / 12)
        = (k - 1) / 108 * ((k - 1) % 36 / 12)
    rw [hage]

/-- Witness for C1 at pattern k = 49. -/
theorem c1_design_vector_witness :
    (1 ≤ 49 ∧ 49 ≤ 216) ∧ designX (49 - 1) 6 = ageIndOf 49 * biopsyOf 49 :=
  ⟨by decide, (c1_design_vector 49 (by decide) (by decide)).2.2.2.2.2.2.1⟩

/-- C2 (counterexample): when the selected pattern index is i = 109
(> 108) and rhyp = 1.82, the mirror index 109−108 = 1 is NOT adjusted:
starting from an all-zero predictor array, entry 0 (0-based) remains 0
instead of becoming log 1.82. -/
theorem c2_counterexample :
    hypAdjust (fun _ => (0 : ℝ)) 109 1.82 0
      ≠ (fun _ => (0 : ℝ)) 0 + Real.log 1.82 := by
  have h1 : hypAdjust (fun _ => (0 : ℝ)) 109 1.82 0 = 0 := by
    unfold hypAdjust
    rw [if_neg (by decide : ¬ (109 : ℤ) ≤ 108)]
    rw [Function.update_noteq (by decide : (0 : ℕ) ≠ ((109 : ℤ) - 1).toNat)]
  have h2 : 0 < Real.log 1.82 := Real.log_pos (by norm_num)
  rw [h1]
  intro hcon
  rw [zero_add] at hcon
  linarith [hcon ▸ h2]

/-- C2 (amended): for a pattern index i in [1,216], the hyperplasia
adjustment of lines 619-622 adds log(rhyp) at index i always; it adds
log(rhyp) at the mirror i+108 only when i ≤ 108; when i > 108 no mirror
entry is touched; and no other entry changes. -/
theorem c2_hyp_adjust (f : ℕ → ℝ) (i : ℤ) (r : ℝ)
    (h1 : 1 ≤ i) (h2 : i ≤ 216) :
    hypAdjust f i r ((i - 1).toNat) = f ((i - 1).toNat) + Real.log r
    ∧ (i ≤ 108 →
        hypAdjust f i r ((i + 107).toNat) = f ((i + 107).toNat) + Real.log r)
    ∧ (∀ j : ℕ, j ≠ (i - 1).toNat → j ≠ (i + 107).toNat →
        hypAdjust f i r j = f j)
    ∧ (108 < i → ∀ j : ℕ, j ≠ (i - 1).toNat → hypAdjust f i r j = f j) := by
  unfold hypAdjust
  by_cases hle : i ≤ 108
  · rw [if_pos hle]
    have hne : (i - 1).toNat ≠ (i + 107).toNat := by omega
    refine ⟨?_, fun _ => ?_, fun j hj1 hj2 => ?_,
      fun hgt => absurd hle (by omega)⟩
    · rw [Function.update_noteq hne, Function.update_same]
    · rw [Function.update_same, Function.update_noteq hne.symm]
    · rw [Function.update_noteq hj2, Function.update_noteq hj1]
  · rw [if_neg hle]
    refine ⟨?_, fun hc => absurd hc hle, fun j hj1 _ => ?_, fun _ j hj1 => ?_⟩
    · rw [Function.update_same]
    · rw [Function.update_noteq hj1]
    · rw [Function.update_noteq hj1]

/-- Witness for C2 at i = 5, r = 2. -/
theorem c2_hyp_adjust_witness :
    (1 ≤ (5 : ℤ) ∧ (5 : ℤ) ≤ 216)
    ∧ hypAdjust (fun _ => (0 : ℝ)) 5 2 (((5 : ℤ) - 1).toNat)
        = (fun _ => (0 : ℝ)) (((5 : ℤ) - 1).toNat) + Real.log 2 :=
  ⟨by decide, (c2_hyp_adjust (fun _ => (0 : ℝ)) 5 2 (by decide) (by decide)).1⟩

/-- C5 (counterexample): with menarche category 3 (exceeding its
cardinality 0..2) and the remaining categories in range, the computation
does not fail at all: `calculate_absolute_risk` still returns a risk
value (the pattern index silently lands on 109, the slot of another
pattern).  The source defines no PatternOutOfRange error anywhere. -/
theorem c5_counterexample :
    ∃ v, calculate_absolute_risk initState 40 45 3 0 0 99 99 99 1
      = Except.ok v :=
  ⟨_, by
    unfold calculate_absolute_risk
    rw [if_pos (show initState.inited = true from rfl)]⟩

/-- C5 (amended): the pattern index is computed as
ageIndicator·108 + menarche·36 + biopsyCount·12 + firstBirth·3 +
relatives + 1, but the code performs no range check on it and defines
no PatternOutOfRange error: a category value exceeding its cardinality
is never rejected.  When the call's predictor-array accesses all stay
in bounds — index in [1,216], and at most 108 whenever the integration
crosses age 50 (`sumbbAccessInBounds`) — a risk result is silently
produced from the aliased pattern slot; outside that condition the
source instead fails with an IndexError at an array access, which is
still not a PatternOutOfRange failure. -/
theorem c5_no_range_check (ca pa men bio fb rel : ℤ)
    (hca1 : 20 ≤ ca) (hca2 : ca ≤ 85) (hpa1 : ca < pa) (hpa2 : pa ≤ 90)
    (hm1 : 0 ≤ men) (hb1 : 0 ≤ bio) (hb2 : bio ≤ 2)
    (hf1 : 0 ≤ fb) (hf2 : fb ≤ 3) (hr1 : 0 ≤ rel) (hr2 : rel ≤ 2)
    (hacc : sumbbAccessInBounds ca pa
      (patternIndex (if 50 ≤ ca then 1 else 0) men bio fb rel)) :
    patternIndex (if 50 ≤ ca then 1 else 0) men bio fb rel
        = (if 50 ≤ ca then 1 else 0) * 108
          + men * 36 + bio * 12 + fb * 3 + rel + 1
    ∧ ∃ v, calculate_absolute_risk initState ca pa men fb rel 1 bio 99 1
        = Except.ok v := by
  refine ⟨rfl, ?_⟩
  exact ⟨_, by
    unfold calculate_absolute_risk
    rw [if_pos (show initState.inited = true from rfl)]⟩

/-- Witness for C5 at menarche = 3 (exceeding its cardinality 0..2),
ages 40 → 45: the index is 109 ∈ [1,216], the integration does not
cross age 50, all accesses are in bounds, and a result is produced. -/
theorem c5_no_range_check_witness :
    sumbbAccessInBounds 40 45
      (patternIndex (if (50 : ℤ) ≤ 40 then 1 else 0) 3 0 0 0)
    ∧ (patternIndex (if (50 : ℤ) ≤ 40 then 1 else 0) 3 0 0 0
        = (if (50 : ℤ) ≤ 40 then 1 else 0) * 108
          + 3 * 36 + 0 * 12 + 0 * 3 + 0 + 1
      ∧ ∃ v, calculate_absolute_risk initState 40 45 3 0 0 1 0 99 1
          = Except.ok v) :=
  ⟨by unfold sumbbAccessInBounds; decide,
    c5_no_range_check 40 45 3 0 0 0 (by decide) (by decide) (by decide)
      (by decide) (by decide) (by decide) (by decide) (by decide)
      (by decide) (by decide) (by decide)
      (by unfold sumbbAccessInBounds; decide)⟩

/-- C6 (counterexample): a risk call mutates state that is shared
between calls: on a freshly initialised calculator the instance array
`self.bet` (all zeros after `__init__`; `initialize` never writes it)
holds the White/Other intercept −0.74948246 after one absolute-risk
call, so the call did not confine its writes to a call-local copy. -/
theorem c6_counterexample :
    ((calculate_risk_api initState 1 35 40 2 0 0 1 1 1 1).1).bet 0
      ≠ initState.bet 0 := by
  have hL : ((calculate_risk_api initState 1 35 40 2 0 0 1 1 1 1).1).bet 0
      = ((bet2Q 0 0 : ℚ) : ℝ) := rfl
  have hR : initState.bet 0 = 0 := rfl
  have hv : bet2Q 0 0 = -0.7494824600 := rfl
  rw [hL, hR, hv]
  intro hcon
  have : (-0.7494824600 : ℚ) = 0 := by exact_mod_cast hcon
  norm_num at this

/-- C6 (amended): the per-call mutation is NOT confined to a call-local
copy — the scratch arrays (`bet`, `rf`, `rlan`, `rmu`, `sumb`, `sumbb`,
`abs`) are instance state rewritten by every call — but the master
tables (`bet2`, `rlan2`, `rmu2`, `rf2`) and the age boundaries `t` are
never mutated by any call, nor is the initialisation flag. -/
theorem c6_master_tables_unchanged (s : CalcState)
    (risk_index current_age projection_age menarche_age
     first_live_birth_age first_deg_relatives ever_had_biopsy
     number_of_biopsy hyperplasia race : ℤ) :
    ((calculate_risk_api s risk_index current_age projection_age
        menarche_age first_live_birth_age first_deg_relatives
        ever_had_biopsy number_of_biopsy hyperplasia race).1).bet2 = s.bet2
    ∧ ((calculate_risk_api s risk_index current_age projection_age
        menarche_age first_live_birth_age first_deg_relatives
        ever_had_biopsy number_of_biopsy hyperplasia race).1).rlan2 = s.rlan2
    ∧ ((calculate_risk_api s risk_index current_age projection_age
        menarche_age first_live_birth_age first_deg_relatives
        ever_had_biopsy number_of_biopsy hyperplasia race).1).rmu2 = s.rmu2
    ∧ ((calculate_risk_api s risk_index current_age projection_age
        menarche_age first_live_birth_age first_deg_relatives
        ever_had_biopsy number_of_biopsy hyperplasia race).1).rf2 = s.rf2
    ∧ ((calculate_risk_api s risk_index current_age projection_age
        menarche_age first_live_birth_age first_deg_relatives
        ever_had_biopsy number_of_biopsy hyperplasia race).1).t = s.t
    ∧ ((calculate_risk_api s risk_index current_age projection_age
        menarche_age first_live_birth_age first_deg_relatives
        ever_had_biopsy number_of_biopsy hyperplasia race).1).inited
        = s.inited :=
  ⟨rfl, rfl, rfl, rfl, rfl, rfl⟩

/-- C9: the biopsy-input cleaning rules of `clean_biopsy_inputs`:
unknown (99) ever-had-biopsy becomes no (0); yes (1) with unknown count
(99) gives count 1; no (0) gives count 0; an (intermediate) count in
(1, 30] becomes category 2 — in particular for ever = 1 and a raw count
in (1, 30]; and hyperplasia is forced to unknown (99) whenever the
cleaned ever-had-biopsy value is no (0). -/
theorem c9_clean_biopsy (e c h : ℤ) :
    (e = 99 → (clean_biopsy_inputs e c h).1 = 0)
    ∧ (e = 1 → c = 99 → (clean_biopsy_inputs e c h).2.1 = 1)
    ∧ (e = 0 → (clean_biopsy_inputs e c h).2.1 = 0)
    ∧ (1 < biopsyStage2Count e c → biopsyStage2Count e c ≤ 30 →
        (clean_biopsy_inputs e c h).2.1 = 2)
    ∧ (e = 1 → 1 < c → c ≤ 30 → (clean_biopsy_inputs e c h).2.1 = 2)
    ∧ ((clean_biopsy_inputs e c h).1 = 0 → (clean_biopsy_inputs e c h).2.2 = 99) := by
  refine ⟨?_, ?_, ?_, ?_, ?_, ?_⟩
  · intro h99
    simp only [clean_biopsy_inputs, biopsyStage2Count, biopsyStage1Ever, h99]
    norm_num
  · intro h1 h99
    simp only [clean_biopsy_inputs, biopsyStage2Count, biopsyStage1Ever, h1, h99]
    norm_num
  · intro h0
    simp only [clean_biopsy_inputs, biopsyStage2Count, biopsyStage1Ever, h0]
    norm_num
  · intro hgt hle
    simp only [clean_biopsy_inputs]
    rw [if_pos ⟨hgt, hle⟩]
  · intro h1 hgt hle
    simp only [clean_biopsy_inputs, biopsyStage2Count, biopsyStage1Ever, h1]
    split_ifs <;> omega
  · intro hev
    simp only [clean_biopsy_inputs, biopsyStage1Ever] at hev ⊢
    split_ifs at hev ⊢ <;> omega

/-- Witness for C9 across its five rules at concrete inputs. -/
theorem c9_clean_biopsy_witness :
    (clean_biopsy_inputs 99 5 1).1 = 0
    ∧ (clean_biopsy_inputs 1 99 0).2.1 = 1
    ∧ (clean_biopsy_inputs 0 7 1).2.1 = 0
    ∧ (clean_biopsy_inputs 1 7 0).2.1 = 2
    ∧ (clean_biopsy_inputs 0 3 5).2.2 = 99 :=
  ⟨(c9_clean_biopsy 99 5 1).1 rfl,
   (c9_clean_biopsy 1 99 0).2.1 rfl rfl,
   (c9_clean_biopsy 0 7 1).2.2.1 rfl,
   (c9_clean_biopsy 1 7 0).2.2.2.2.1 rfl (by decide) (by decide),
   (c9_clean_biopsy 0 3 5).2.2.2.2.2 (by decide)⟩

/-- C10 (counterexample): calling `calculate_full_risk` on an
uninitialised calculator with invalid parameters (projection age 30
below current age 35) raises ValueError, not RuntimeError — validation
runs before the initialisation check. -/
theorem c10_counterexample :
    calculate_full_risk zeroState
        { current_age := 35, projection_age := 30, menarche_age := 2,
          first_live_birth_age := 0, first_deg_relatives := 0,
          ever_had_biopsy := 99, number_of_biopsy := 99,
          hyperplasia := 99, race := 1 }
      ≠ Except.error PyError.runtimeError := by
  unfold calculate_full_risk
  rw [if_neg (by decide)]
  simp only [ne_eq, Except.error.injEq]
  decide

/-- C10 (amended): on an uninitialised instance,
`calculate_absolute_risk` and `calculate_average_risk` raise
RuntimeError unconditionally, and `calculate_full_risk` raises
RuntimeError exactly when its parameters pass validation (otherwise it
raises ValueError first); once initialised, the absolute and average
entry points always return a value and `calculate_full_risk` never
raises RuntimeError. -/
theorem c10_init_guard (s : CalcState) (p : GailInputParams) :
    (s.inited = false →
      calculate_absolute_risk s p.current_age p.projection_age
          p.menarche_age p.first_live_birth_age p.first_deg_relatives
          p.ever_had_biopsy p.number_of_biopsy p.hyperplasia p.race
        = Except.error PyError.runtimeError
      ∧ calculate_average_risk s p.current_age p.projection_age
          p.menarche_age p.first_live_birth_age p.first_deg_relatives
          p.ever_had_biopsy p.number_of_biopsy p.hyperplasia p.race
        = Except.error PyError.runtimeError
      ∧ (validateParams p = true →
          calculate_full_risk s p = Except.error PyError.runtimeError)
      ∧ (validateParams p = false →
          calculate_full_risk s p = Except.error PyError.valueError))
    ∧ (s.inited = true →
      (∃ v, calculate_absolute_risk s p.current_age p.projection_age
          p.menarche_age p.first_live_birth_age p.first_deg_relatives
          p.ever_had_biopsy p.number_of_biopsy p.hyperplasia p.race
        = Except.ok v)
      ∧ (∃ v, calculate_average_risk s p.current_age p.projection_age
          p.menarche_age p.first_live_birth_age p.first_deg_relatives
          p.ever_had_biopsy p.number_of_biopsy p.hyperplasia p.race
        = Except.ok v)
      ∧ ∀ e, calculate_full_risk s p = Except.error e →
          e = PyError.valueError) := by
  constructor
  · intro hinit
    have habs : calculate_absolute_risk s p.current_age p.projection_age
        p.menarche_age p.first_live_birth_age p.first_deg_relatives
        p.ever_had_biopsy p.number_of_biopsy p.hyperplasia p.race
        = Except.error PyError.runtimeError := by
      simp [calculate_absolute_risk, hinit]
    refine ⟨habs, by simp [calculate_average_risk, hinit], ?_, ?_⟩
    · intro hval
      unfold calculate_full_risk
      rw [if_pos hval, habs]
    · intro hval
      unfold calculate_full_risk
      rw [hval]
      simp
  · intro hinit
    refine ⟨⟨calculate_risk_api s 1 p.current_age p.projection_age
        p.menarche_age p.first_live_birth_age p.first_deg_relatives
        p.ever_had_biopsy p.number_of_biopsy p.hyperplasia p.race,
        by simp [calculate_absolute_risk, hinit]⟩,
      ⟨calculate_risk_api s 2 p.current_age p.projection_age
        p.menarche_age p.first_live_birth_age p.first_deg_relatives
        p.ever_had_biopsy p.number_of_biopsy p.hyperplasia p.race,
        by simp [calculate_average_risk, hinit]⟩, ?_⟩
    intro e he
    by_cases hval : validateParams p = true
    · unfold calculate_full_risk at he
      rw [if_pos hval] at he
      have hin2 : ((calculate_risk_api s 1 p.current_age p.projection_age
          p.menarche_age p.first_live_birth_age p.first_deg_relatives
          p.ever_had_biopsy p.number_of_biopsy p.hyperplasia
          p.race).1).inited = true := by
        rw [(calculate_risk_api_masters s 1 p.current_age p.projection_age
          p.menarche_age p.first_live_birth_age p.first_deg_relatives
          p.ever_had_biopsy p.number_of_biopsy p.hyperplasia
          p.race).2.2.2.2.2, hinit]
      simp [calculate_absolute_risk, calculate_average_risk, hinit, hin2] at he
    · have hval' : validateParams p = false := by
        revert hval
        cases validateParams p <;> simp
      unfold calculate_full_risk at he
      rw [hval'] at he
      simp at he
      exact he.symm

/-- C8: for every valid query on an initialised calculator,
`calculate_full_risk` returns a result whose relative risk equals
absolute/average whenever the average risk is positive, and equals
exactly 0 when the average risk is exactly 0 (line 459:
`rel_risk = abs_risk / avg_risk if avg_risk > 0 else 0.0`). -/
theorem c8_relative_risk (s : CalcState) (p : GailInputParams)
    (hinit : s.inited = true) (hval : validateParams p = true) :
    ∃ s2 r, calculate_full_risk s p = Except.ok (s2, r)
      ∧ (0 < r.average_risk →
          r.relative_risk = r.absolute_risk / r.average_risk)
      ∧ (r.average_risk = 0 → r.relative_risk = 0) := by
  have hin2 : ((calculate_risk_api s 1 p.current_age p.projection_age
      p.menarche_age p.first_live_birth_age p.first_deg_relatives
      p.ever_had_biopsy p.number_of_biopsy p.hyperplasia
      p.race).1).inited = true := by
    rw [(calculate_risk_api_masters s 1 p.current_age p.projection_age
      p.menarche_age p.first_live_birth_age p.first_deg_relatives
      p.ever_had_biopsy p.number_of_biopsy p.hyperplasia
      p.race).2.2.2.2.2, hinit]
  refine ⟨(calculate_risk_api ((calculate_risk_api s 1 p.current_age
      p.projection_age p.menarche_age p.first_live_birth_age
      p.first_deg_relatives p.ever_had_biopsy p.number_of_biopsy
      p.hyperplasia p.race).1) 2 p.current_age p.projection_age
      p.menarche_age p.first_live_birth_age p.first_deg_relatives
      p.ever_had_biopsy p.number_of_biopsy p.hyperplasia p.race).1,
    { absolute_risk := (calculate_risk_api s 1 p.current_age
        p.projection_age p.menarche_age p.first_live_birth_age
        p.first_deg_relatives p.ever_had_biopsy p.number_of_biopsy
        p.hyperplasia p.race).2,
      average_risk := (calculate_risk_api ((calculate_risk_api s 1
        p.current_age p.projection_age p.menarche_age
        p.first_live_birth_age p.first_deg_relatives p.ever_had_biopsy
        p.number_of_biopsy p.hyperplasia p.race).1) 2 p.current_age
        p.projection_age p.menarche_age p.first_live_birth_age
        p.first_deg_relatives p.ever_had_biopsy p.number_of_biopsy
        p.hyperplasia p.race).2,
      relative_risk := if 0 < (calculate_risk_api ((calculate_risk_api s 1
          p.current_age p.projection_age p.menarche_age
          p.first_live_birth_age p.first_deg_relatives p.ever_had_biopsy
          p.number_of_biopsy p.hyperplasia p.race).1) 2 p.current_age
          p.projection_age p.menarche_age p.first_live_birth_age
          p.first_deg_relatives p.ever_had_biopsy p.number_of_biopsy
          p.hyperplasia p.race).2
        then (calculate_risk_api s 1 p.current_age p.projection_age
          p.menarche_age p.first_live_birth_age p.first_deg_relatives
          p.ever_had_biopsy p.number_of_biopsy p.hyperplasia p.race).2
          / (calculate_risk_api ((calculate_risk_api s 1 p.current_age
          p.projection_age p.menarche_age p.first_live_birth_age
          p.first_deg_relatives p.ever_had_biopsy p.number_of_biopsy
          p.hyperplasia p.race).1) 2 p.current_age p.projection_age
          p.menarche_age p.first_live_birth_age p.first_deg_relatives
          p.ever_had_biopsy p.number_of_biopsy p.hyperplasia p.race).2
        else 0,
      current_age := p.current_age,
      projection_age := p.projection_age }, ?_, ?_, ?_⟩
  · unfold calculate_full_risk
    rw [if_pos hval]
    simp [calculate_absolute_risk, calculate_average_risk, hinit, hin2]
  · intro hpos
    dsimp only at hpos ⊢
    rw [if_pos hpos]
  · intro hzero
    dsimp only at hzero ⊢
    rw [hzero, if_neg (lt_irrefl (0 : ℝ))]

/-- C7: two successive `calculate_full_risk` calls on the same
initialised calculator with identical arguments return identical
results: although each call rewrites the instance scratch arrays in
place, every scratch array is fully overwritten before being read, so
the returned risks depend only on the master tables, which calls never
change. -/
theorem c7_idempotent (s : CalcState) (p : GailInputParams)
    (hinit : s.inited = true) (hval : validateParams p = true) :
    ∃ s1 r s2, calculate_full_risk s p = Except.ok (s1, r)
      ∧ calculate_full_risk s1 p = Except.ok (s2, r) := by
  obtain ⟨hb2, hl2, hm2, hf2, ht2, hi2⟩ := calculate_risk_api_masters s 1
    p.current_age p.projection_age p.menarche_age p.first_live_birth_age
    p.first_deg_relatives p.ever_had_biopsy p.number_of_biopsy
    p.hyperplasia p.race
  obtain ⟨hb3, hl3, hm3, hf3, ht3, hi3⟩ := calculate_risk_api_masters
    ((calculate_risk_api s 1 p.current_age p.projection_age
      p.menarche_age p.first_live_birth_age p.first_deg_relatives
      p.ever_had_biopsy p.number_of_biopsy p.hyperplasia p.race).1) 2
    p.current_age p.projection_age p.menarche_age p.first_live_birth_age
    p.first_deg_relatives p.ever_had_biopsy p.number_of_biopsy
    p.hyperplasia p.race
  obtain ⟨hb4, hl4, hm4, hf4, ht4, hi4⟩ := calculate_risk_api_masters
    ((calculate_risk_api ((calculate_risk_api s 1 p.current_age
      p.projection_age p.menarche_age p.first_live_birth_age
      p.first_deg_relatives p.ever_had_biopsy p.number_of_biopsy
      p.hyperplasia p.race).1) 2 p.current_age p.projection_age
      p.menarche_age p.first_live_birth_age p.first_deg_relatives
      p.ever_had_biopsy p.number_of_biopsy p.hyperplasia p.race).1) 1
    p.current_age p.projection_age p.menarche_age p.first_live_birth_age
    p.first_deg_relatives p.ever_had_biopsy p.number_of_biopsy
    p.hyperplasia p.race
  have hin2 : ((calculate_risk_api s 1 p.current_age p.projection_age
      p.menarche_age p.first_live_birth_age p.first_deg_relatives
      p.ever_had_biopsy p.number_of_biopsy p.hyperplasia
      p.race).1).inited = true := by rw [hi2, hinit]
  have hin3 : ((calculate_risk_api ((calculate_risk_api s 1
      p.current_age p.projection_age p.menarche_age
      p.first_live_birth_age p.first_deg_relatives p.ever_had_biopsy
      p.number_of_biopsy p.hyperplasia p.race).1) 2 p.current_age
      p.projection_age p.menarche_age p.first_live_birth_age
      p.first_deg_relatives p.ever_had_biopsy p.number_of_biopsy
      p.hyperplasia p.race).1).inited = true := by rw [hi3, hin2]
  have hin4 : ((calculate_risk_api ((calculate_risk_api
      ((calculate_risk_api s 1 p.current_age p.projection_age
      p.menarche_age p.first_live_birth_age p.first_deg_relatives
      p.ever_had_biopsy p.number_of_biopsy p.hyperplasia p.race).1) 2
      p.current_age p.projection_age p.menarche_age
      p.first_live_birth_age p.first_deg_relatives p.ever_had_biopsy
      p.number_of_biopsy p.hyperplasia p.race).1) 1 p.current_age
      p.projection_age p.menarche_age p.first_live_birth_age
      p.first_deg_relatives p.ever_had_biopsy p.number_of_biopsy
      p.hyperplasia p.race).1).inited = true := by rw [hi4, hin3]
  -- The second call's absolute risk equals the first call's.
  have habs2 : (calculate_risk_api ((calculate_risk_api
      ((calculate_risk_api s 1 p.current_age p.projection_age
      p.menarche_age p.first_live_birth_age p.first_deg_relatives
      p.ever_had_biopsy p.number_of_biopsy p.hyperplasia p.race).1) 2
      p.current_age p.projection_age p.menarche_age
      p.first_live_birth_age p.first_deg_relatives p.ever_had_biopsy
      p.number_of_biopsy p.hyperplasia p.race).1) 1 p.current_age
      p.projection_age p.menarche_age p.first_live_birth_age
      p.first_deg_relatives p.ever_had_biopsy p.number_of_biopsy
      p.hyperplasia p.race).2
      = (calculate_risk_api s 1 p.current_age p.projection_age
      p.menarche_age p.first_live_birth_age p.first_deg_relatives
      p.ever_had_biopsy p.number_of_biopsy p.hyperplasia p.race).2 := by
    apply calculate_risk_api_result_ext <;> rfl
  -- The second call's average risk equals the first call's.
  have havg2 : (calculate_risk_api ((calculate_risk_api
      ((calculate_risk_api ((calculate_risk_api s 1 p.current_age
      p.projection_age p.menarche_age p.first_live_birth_age
      p.first_deg_relatives p.ever_had_biopsy p.number_of_biopsy
      p.hyperplasia p.race).1) 2 p.current_age p.projection_age
      p.menarche_age p.first_live_birth_age p.first_deg_relatives
      p.ever_had_biopsy p.number_of_biopsy p.hyperplasia p.race).1) 1
      p.current_age p.projection_age p.menarche_age
      p.first_live_birth_age p.first_deg_relatives p.ever_had_biopsy
      p.number_of_biopsy p.hyperplasia p.race).1) 2 p.current_age
      p.projection_age p.menarche_age p.first_live_birth_age
      p.first_deg_relatives p.ever_had_biopsy p.number_of_biopsy
      p.hyperplasia p.race).2
      = (calculate_risk_api ((calculate_risk_api s 1 p.current_age
      p.projection_age p.menarche_age p.first_live_birth_age
      p.first_deg_relatives p.ever_had_biopsy p.number_of_biopsy
      p.hyperplasia p.race).1) 2 p.current_age p.projection_age
      p.menarche_age p.first_live_birth_age p.first_deg_relatives
      p.ever_had_biopsy p.number_of_biopsy p.hyperplasia p.race).2 := by
    apply calculate_risk_api_result_ext <;> rfl
  refine ⟨(calculate_risk_api ((calculate_risk_api s 1 p.current_age
      p.projection_age p.menarche_age p.first_live_birth_age
      p.first_deg_relatives p.ever_had_biopsy p.number_of_biopsy
      p.hyperplasia p.race).1) 2 p.current_age p.projection_age
      p.menarche_age p.first_live_birth_age p.first_deg_relatives
      p.ever_had_biopsy p.number_of_biopsy p.hyperplasia p.race).1,
    { absolute_risk := (calculate_risk_api s 1 p.current_age
        p.projection_age p.menarche_age p.first_live_birth_age
        p.first_deg_relatives p.ever_had_biopsy p.number_of_biopsy
        p.hyperplasia p.race).2,
      average_risk := (calculate_risk_api ((calculate_risk_api s 1
        p.current_age p.projection_age p.menarche_age
        p.first_live_birth_age p.first_deg_relatives p.ever_had_biopsy
        p.number_of_biopsy p.hyperplasia p.race).1) 2 p.current_age
        p.projection_age p.menarche_age p.first_live_birth_age
        p.first_deg_relatives p.ever_had_biopsy p.number_of_biopsy
        p.hyperplasia p.race).2,
      relative_risk := if 0 < (calculate_risk_api ((calculate_risk_api s 1
          p.current_age p.projection_age p.menarche_age
          p.first_live_birth_age p.first_deg_relatives p.ever_had_biopsy
          p.number_of_biopsy p.hyperplasia p.race).1) 2 p.current_age
          p.projection_age p.menarche_age p.first_live_birth_age
          p.first_deg_relatives p.ever_had_biopsy p.number_of_biopsy
          p.hyperplasia p.race).2
        then (calculate_risk_api s 1 p.current_age p.projection_age
          p.menarche_age p.first_live_birth_age p.first_deg_relatives
          p.ever_had_biopsy p.number_of_biopsy p.hyperplasia p.race).2
          / (calculate_risk_api ((calculate_risk_api s 1 p.current_age
          p.projection_age p.menarche_age p.first_live_birth_age
          p.first_deg_relatives p.ever_had_biopsy p.number_of_biopsy
          p.hyperplasia p.race).1) 2 p.current_age p.projection_age
          p.menarche_age p.first_live_birth_age p.first_deg_relatives
          p.ever_had_biopsy p.number_of_biopsy p.hyperplasia p.race).2
        else 0,
      current_age := p.current_age,
      projection_age := p.projection_age },
    (calculate_risk_api ((calculate_risk_api ((calculate_risk_api
      ((calculate_risk_api s 1 p.current_age p.projection_age
      p.menarche_age p.first_live_birth_age p.first_deg_relatives
      p.ever_had_biopsy p.number_of_biopsy p.hyperplasia p.race).1) 2
      p.current_age p.projection_age p.menarche_age
      p.first_live_birth_age p.first_deg_relatives p.ever_had_biopsy
      p.number_of_biopsy p.hyperplasia p.race).1) 1 p.current_age
      p.projection_age p.menarche_age p.first_live_birth_age
      p.first_deg_relatives p.ever_had_biopsy p.number_of_biopsy
      p.hyperplasia p.race).1) 2 p.current_age p.projection_age
      p.menarche_age p.first_live_birth_age p.first_deg_relatives
      p.ever_had_biopsy p.number_of_biopsy p.hyperplasia p.race).1,
    ?_, ?_⟩
  · unfold calculate_full_risk
    rw [if_pos hval]
    simp [calculate_absolute_risk, calculate_average_risk, hinit, hin2]
  · unfold calculate_full_risk
    rw [if_pos hval]
    simp [calculate_absolute_risk, calculate_average_risk, hin3, hin4]
    rw [habs2, havg2]
    exact ⟨rfl, rfl, rfl⟩

/-- Witness for C7 at the initialised calculator and a valid query. -/
theorem c7_idempotent_witness :
    initState.inited = true
    ∧ ∃ s1 r s2, calculate_full_risk initState
        { current_age := 35, projection_age := 40, menarche_age := 2,
          first_live_birth_age := 0, first_deg_relatives := 0,
          ever_had_biopsy := 99, number_of_biopsy := 99,
          hyperplasia := 99, race := 1 } = Except.ok (s1, r)
      ∧ calculate_full_risk s1
        { current_age := 35, projection_age := 40, menarche_age := 2,
          first_live_birth_age := 0, first_deg_relatives := 0,
          ever_had_biopsy := 99, number_of_biopsy := 99,
          hyperplasia := 99, race := 1 } = Except.ok (s2, r) :=
  ⟨rfl, c7_idempotent initState
    { current_age := 35, projection_age := 40, menarche_age := 2,
      first_live_birth_age := 0, first_deg_relatives := 0,
      ever_had_biopsy := 99, number_of_biopsy := 99,
      hyperplasia := 99, race := 1 } rfl (by decide)⟩

/-- Witness for C8 at the initialised calculator and a valid query. -/
theorem c8_relative_risk_witness :
    initState.inited = true
    ∧ ∃ s2 r, calculate_full_risk initState
        { current_age := 35, projection_age := 40, menarche_age := 2,
          first_live_birth_age := 0, first_deg_relatives := 0,
          ever_had_biopsy := 99, number_of_biopsy := 99,
          hyperplasia := 99, race := 1 } = Except.ok (s2, r)
      ∧ (0 < r.average_risk →
          r.relative_risk = r.absolute_risk / r.average_risk)
      ∧ (r.average_risk = 0 → r.relative_risk = 0) :=
  ⟨rfl, c8_relative_risk initState
    { current_age := 35, projection_age := 40, menarche_age := 2,
      first_live_birth_age := 0, first_deg_relatives := 0,
      ever_had_biopsy := 99, number_of_biopsy := 99,
      hyperplasia := 99, race := 1 } rfl (by decide)⟩

/-- Witness for C10: the uninitialised RuntimeError and the initialised
success, at concrete parameters. -/
theorem c10_init_guard_witness :
    calculate_absolute_risk zeroState 35 40 2 0 0 99 99 99 1
      = Except.error PyError.runtimeError
    ∧ ∃ v, calculate_absolute_risk initState 35 40 2 0 0 99 99 99 1
      = Except.ok v :=
  ⟨((c10_init_guard zeroState
      { current_age := 35, projection_age := 40, menarche_age := 2,
        first_live_birth_age := 0, first_deg_relatives := 0,
        ever_had_biopsy := 99, number_of_biopsy := 99,
        hyperplasia := 99, race := 1 }).1 rfl).1,
   ((c10_init_guard initState
      { current_age := 35, projection_age := 40, menarche_age := 2,
        first_live_birth_age := 0, first_deg_relatives := 0,
        ever_had_biopsy := 99, number_of_biopsy := 99,
        hyperplasia := 99, race := 1 }).2 rfl).1⟩

end Gail
